import Mathlib

/-!
# hyprbars: the title-bar decoration `CHyprBar` (src/hyprbars/barDeco.cpp)

A shallow embedding of the pointer interaction (`onMouseDown`, `onMouseMove`),
the button layout (`renderBarButtons`), the per-frame `draw` step with its
texture caches, `updateWindow` and `damageEntire`.

Conventions of the embedding:
* C++ `double`/`float` values are exact rationals (`ℚ`); `int` values are `Int`.
  A conversion `double → int` is the explicit truncation `toInt`,
  `Vector2D::floor` is `Vector2D.floor`.
* Mutable members of `CHyprBar` are fields of the record `CHyprBar`; every
  method returns the updated record together with what it emitted.
* Everything read from the compositor (window, configuration values, button
  registry) is gathered in the record `Host`.
* Calls into the compositor are recorded, in program order, as lists of
  `Action` (keybind dispatchers) and `RenderOp` (renderer and rasterizer).
-/

namespace HyprBars

/-! ## Constants and basic types -/

/-- Source: `constexpr int BAR_PADDING = 10;` -/
def BAR_PADDING : Int := 10

/-- Source: `constexpr int BUTTONS_PAD = 5;` -/
def BUTTONS_PAD : Int := 5

/-- Compositor type `Vector2D`: a pair of doubles. -/
structure Vector2D where
  x : ℚ
  y : ℚ
deriving DecidableEq

/-- Compositor method `Vector2D::floor()`: component-wise floor. -/
def Vector2D.floor (v : Vector2D) : Vector2D :=
  ⟨(⌊v.x⌋ : Int), (⌊v.y⌋ : Int)⟩

/-- Conversion of a floating value to `int`: truncation toward zero. -/
def toInt (q : ℚ) : Int :=
  if 0 ≤ q then ⌊q⌋ else -⌊-q⌋

/-- Modelled from the spec: the compositor macro `VECINRECT(vec, x1, y1, x2, y2)`
is not part of this repository; the spec (§4.2) describes the rectangle test as
inclusive on the low edge and exclusive on the high edge. -/
def VECINRECT (vec : Vector2D) (x1 y1 x2 y2 : ℚ) : Prop :=
  x1 ≤ vec.x ∧ vec.x < x2 ∧ y1 ≤ vec.y ∧ vec.y < y2

instance (vec : Vector2D) (x1 y1 x2 y2 : ℚ) : Decidable (VECINRECT vec x1 y1 x2 y2) := by
  unfold VECINRECT
  infer_instance

/-- Colour `CColor` with channels in `[0,1]`. -/
structure CColor where
  r : ℚ
  g : ℚ
  b : ℚ
  a : ℚ
deriving DecidableEq

/-- A texture `CTexture`, reduced to its GL name `m_iTexID` (0 = not created). -/
structure CTexture where
  m_iTexID : Nat
deriving DecidableEq

/-- Modelled from the spec: `CTexture::allocate` belongs to the compositor; it
creates the GL texture when there is none yet, and texture operations are
assumed to always succeed (§7), so the name is nonzero afterwards. -/
def CTexture.allocate (t : CTexture) : CTexture :=
  if t.m_iTexID = 0 then ⟨1⟩ else t

/-- Button descriptor `SHyprButton` of the process-wide registry. -/
structure SHyprButton where
  cmd : String
  col : CColor
  size : ℚ
  icon : String
  iconTex : CTexture
deriving DecidableEq

/-- The type `SWindowDecorationExtents`. -/
structure SWindowDecorationExtents where
  topLeft : Vector2D
  bottomRight : Vector2D
deriving DecidableEq

/-- The type `wlr_box`: integer rectangle. -/
structure wlr_box where
  x : Int
  y : Int
  width : Int
  height : Int
deriving DecidableEq

/-- The part of `CMonitor` that `draw` reads. -/
structure CMonitor where
  scale : ℚ
  vecPosition : Vector2D

/-- Everything the bar reads from the compositor: the decorated window
(`m_pWindow`), the configuration values and the button registry
(`g_pGlobalState->buttons`). -/
structure Host where
  /-- Source `m_pWindow->m_vRealPosition.vec()` -/
  m_vRealPosition : Vector2D
  /-- Source `m_pWindow->m_vRealSize.vec()` -/
  m_vRealSize : Vector2D
  /-- Source `m_pWindow->m_szTitle` -/
  m_szTitle : String
  /-- Source `m_pWindow->getRealBorderSize()` -/
  BORDERSIZE : Int
  /-- Source `g_pCompositor->windowValidMapped(m_pWindow)` -/
  windowValidMapped : Bool
  /-- Source `m_pWindow->m_sSpecialRenderData.decorate` -/
  decorate : Bool
  /-- Source `pWindow->m_bPinned` -/
  m_bPinned : Bool
  /-- Source `PWORKSPACE->m_vRenderOffset.vec()`, `none` when there is no workspace -/
  workspaceOffset : Option Vector2D
  /-- configuration value `plugin:hyprbars:bar_height` -/
  PHEIGHT : Int
  /-- configuration value `general:border_size` -/
  PBORDER : Int
  /-- configuration value `decoration:rounding` -/
  PROUNDING : Int
  /-- Source `g_pGlobalState->buttons` -/
  buttons : List SHyprButton

/-- The mutable members of one bar instance. -/
structure CHyprBar where
  m_seExtents : SWindowDecorationExtents
  m_vLastWindowPos : Vector2D
  m_vLastWindowSize : Vector2D
  m_tTextTex : CTexture
  m_tButtonsTex : CTexture
  m_bWindowSizeChanged : Bool
  m_bButtonsDirty : Bool
  m_szLastTitle : String
  m_bDraggingThis : Bool
  m_bDragPending : Bool
  m_bCancelledDown : Bool
  m_iLastHeight : Int
deriving DecidableEq

/-! ## Pointer interaction -/

/-- A call into the keybind manager: `m_mDispatchers[name](arg)`. -/
inductive Action where
  | mouse (arg : String)
  | exec (cmd : String)
deriving DecidableEq

/-- Drag start: `m_mDispatchers["mouse"]("1movewindow")`. -/
def dragStart : Action := Action.mouse "1movewindow"

/-- Drag stop: `m_mDispatchers["mouse"]("0movewindow")`. -/
def dragStop : Action := Action.mouse "0movewindow"

/-- Source: `CHyprBar::cursorRelativeToBar`, with `mouse` the value of
`g_pInputManager->getMouseCoordsInternal()`. -/
def cursorRelativeToBar (h : Host) (mouse : Vector2D) : Vector2D :=
  ⟨mouse.x - h.m_vRealPosition.x + h.PBORDER,
   mouse.y - h.m_vRealPosition.y + (h.PHEIGHT + h.PBORDER)⟩

/-- The bar-box test at the top of `onMouseDown`:
`VECINRECT(COORDS, 0, 0, m_vLastWindowSize.x + BORDERSIZE * 2, *PHEIGHT + BORDERSIZE)`. -/
def inBarBox (h : Host) (bar : CHyprBar) (COORDS : Vector2D) : Prop :=
  VECINRECT COORDS 0 0 (bar.m_vLastWindowSize.x + h.BORDERSIZE * 2) (h.PHEIGHT + h.BORDERSIZE)

instance (h : Host) (bar : CHyprBar) (c : Vector2D) : Decidable (inBarBox h bar c) := by
  unfold inBarBox
  infer_instance

/-- A rectangle given by its low corner `(x1, y1)` and high corner `(x2, y2)`,
the argument order of `VECINRECT`. -/
structure Rect where
  x1 : ℚ
  y1 : ℚ
  x2 : ℚ
  y2 : ℚ
deriving DecidableEq

/-- Membership of a point in a rectangle, by `VECINRECT`. -/
def Rect.contains (r : Rect) (p : Vector2D) : Prop :=
  VECINRECT p r.x1 r.y1 r.x2 r.y2

instance (r : Rect) (p : Vector2D) : Decidable (r.contains p) := by
  unfold Rect.contains
  infer_instance

/-- The rectangle tested for button `b` in the loop of `onMouseDown`, at running
offset `offset`:
`BARBUF = {(int)m_vLastWindowSize.x + 2 * BORDERSIZE, *PHEIGHT + BORDERSIZE}`,
`currentPos = {BARBUF.x - 2 * BUTTONS_PAD - b.size - offset, (BARBUF.y - b.size) / 2.0}.floor()`,
tested rectangle `(currentPos.x, currentPos.y, currentPos.x + b.size + BUTTONS_PAD, currentPos.y + b.size)`. -/
def hitRect (h : Host) (bar : CHyprBar) (b : SHyprButton) (offset : ℚ) : Rect :=
  let BARBUF : Vector2D :=
    ⟨((toInt bar.m_vLastWindowSize.x + 2 * h.BORDERSIZE : Int) : ℚ), ((h.PHEIGHT + h.BORDERSIZE : Int) : ℚ)⟩
  let currentPos : Vector2D :=
    Vector2D.floor ⟨BARBUF.x - 2 * BUTTONS_PAD - b.size - offset, (BARBUF.y - b.size) / 2⟩
  ⟨currentPos.x, currentPos.y, currentPos.x + b.size + BUTTONS_PAD, currentPos.y + b.size⟩

/-- The button loop of `onMouseDown` (`for (auto& b : g_pGlobalState->buttons)`):
the command of the first button whose rectangle contains `COORDS`, or `none`
when the loop runs to its end. `offset` is the running `float offset`. -/
def buttonLoop (h : Host) (bar : CHyprBar) (COORDS : Vector2D) : List SHyprButton → ℚ → Option String
  | [], _ => none
  | b :: bs, offset =>
    if (hitRect h bar b offset).contains COORDS then
      some b.cmd
    else
      buttonLoop h bar COORDS bs (offset + (BUTTONS_PAD + b.size))

/-- The rectangles the loop of `onMouseDown` tests, in registry order, starting
at running offset `offset`. -/
def hitRects (h : Host) (bar : CHyprBar) : List SHyprButton → ℚ → List Rect
  | [], _ => []
  | b :: bs, offset => hitRect h bar b offset :: hitRects h bar bs (offset + (BUTTONS_PAD + b.size))

/-- Result of one `onMouseDown` call. -/
structure MouseDownResult where
  bar : CHyprBar
  /-- Value of `info.cancelled` when the callback returns -/
  cancelled : Bool
  /-- dispatcher calls, in order -/
  actions : List Action

/-- Source: `CHyprBar::onMouseDown`. `focused` is `m_pWindow == g_pCompositor->m_pLastWindow`,
`cancelled` the incoming `info.cancelled`, `pressed` is `e->state == WLR_BUTTON_PRESSED`,
`mouse` the pointer position. -/
def onMouseDown (h : Host) (bar : CHyprBar) (focused : Bool) (cancelled : Bool)
    (pressed : Bool) (mouse : Vector2D) : MouseDownResult :=
  if !focused then
    ⟨bar, cancelled, []⟩
  else
    let COORDS := cursorRelativeToBar h mouse
    if ¬ inBarBox h bar COORDS then
      ⟨{ bar with m_bDraggingThis := false, m_bDragPending := false }, cancelled,
        if bar.m_bDraggingThis then [dragStop] else []⟩
    else if !pressed then
      ⟨{ bar with m_bCancelledDown := false, m_bDraggingThis := false, m_bDragPending := false },
        (if bar.m_bCancelledDown then true else cancelled),
        if bar.m_bDraggingThis then [dragStop] else []⟩
    else
      let bar1 := { bar with m_bCancelledDown := true }
      match buttonLoop h bar COORDS h.buttons 0 with
      | some cmd => ⟨bar1, true, [Action.exec cmd]⟩
      | none => ⟨{ bar1 with m_bDragPending := true }, true, []⟩

/-- Source: `CHyprBar::onMouseMove`. -/
def onMouseMove (bar : CHyprBar) (_coords : Vector2D) : CHyprBar × List Action :=
  if bar.m_bDragPending then
    ({ bar with m_bDragPending := false, m_bDraggingThis := true }, [dragStart])
  else
    (bar, [])

/-- A pointer event as the compositor delivers it to the two callbacks. -/
inductive PointerEvent where
  /-- the `"mouseButton"` callback: press (`pressed = true`) or release -/
  | button (focused : Bool) (pressed : Bool) (mouse : Vector2D)
  /-- the `"mouseMove"` callback -/
  | move (coords : Vector2D)

/-- A press delivered while the bar's window is the focused one. -/
def press (mouse : Vector2D) : PointerEvent := PointerEvent.button true true mouse

/-- A release delivered while the bar's window is the focused one. -/
def release (mouse : Vector2D) : PointerEvent := PointerEvent.button true false mouse

/-- What one event produced: updated bar, dispatcher calls, and `info.cancelled`
after the callback (the compositor hands every event a fresh `info` with
`cancelled = false`; move events carry no `info` here). -/
structure StepResult where
  bar : CHyprBar
  actions : List Action
  cancelled : Bool

/-- Deliver one event to the bar. -/
def step (h : Host) (bar : CHyprBar) : PointerEvent → StepResult
  | PointerEvent.button focused pressed mouse =>
    let r := onMouseDown h bar focused false pressed mouse
    ⟨r.bar, r.actions, r.cancelled⟩
  | PointerEvent.move coords =>
    let r := onMouseMove bar coords
    ⟨r.1, r.2, false⟩

/-- Accumulated result of a sequence of events. -/
structure RunResult where
  bar : CHyprBar
  /-- all dispatcher calls, in order -/
  actions : List Action
  /-- Value of `info.cancelled` after each event, in order -/
  cancelled : List Bool

/-- Deliver a sequence of events, one after the other. -/
def run (h : Host) (bar : CHyprBar) : List PointerEvent → RunResult
  | [] => ⟨bar, [], []⟩
  | e :: es =>
    let s := step h bar e
    let r := run h s.bar es
    ⟨r.bar, s.actions ++ r.actions, s.cancelled :: r.cancelled⟩

/-- The idle interaction state: no drag pending, no drag active, no release to suppress. -/
def Idle (bar : CHyprBar) : Prop :=
  bar.m_bDragPending = false ∧ bar.m_bDraggingThis = false ∧ bar.m_bCancelledDown = false

instance (bar : CHyprBar) : Decidable (Idle bar) := by
  unfold Idle
  infer_instance

/-! ## Button layout, rasterization and the draw step -/

/-- What the lambda `drawButton` of `renderBarButtons` computes for one button:
`X = currentPos.x`, `Y = currentPos.y`, `RADIUS`, and `scaledButtonSize`; the
circle is drawn by `cairo_arc(CAIRO, X, Y + RADIUS, RADIUS, 0, 2 * M_PI)`. -/
structure ButtonSlot where
  X : Int
  Y : Int
  RADIUS : Int
  scaledButtonSize : ℚ
deriving DecidableEq

/-- The loop `for (auto& b : g_pGlobalState->buttons) drawButton(b);` of
`renderBarButtons`, with the running `int offset`. -/
def renderBarButtonsLoop (bufferSize : Vector2D) (scale : ℚ) : List SHyprButton → Int → List ButtonSlot
  | [], _ => []
  | button :: bs, offset =>
    let scaledButtonsPad : ℚ := BUTTONS_PAD * scale
    let scaledButtonSize : ℚ := button.size * scale
    let currentPos : Vector2D :=
      Vector2D.floor ⟨bufferSize.x - offset - scaledButtonSize, (bufferSize.y - scaledButtonSize) / 2⟩
    ⟨toInt currentPos.x, toInt currentPos.y, ⌈scaledButtonSize / 2⌉, scaledButtonSize⟩ ::
      renderBarButtonsLoop bufferSize scale bs (toInt (offset + (scaledButtonsPad + scaledButtonSize)))

/-- Source: `CHyprBar::renderBarButtons`, reduced to the geometry of the circles
it draws (`int offset = scaledButtonsPad;` then one `drawButton` per button). -/
def renderBarButtons (bufferSize : Vector2D) (scale : ℚ) (buttons : List SHyprButton) : List ButtonSlot :=
  renderBarButtonsLoop bufferSize scale buttons (toInt (BUTTONS_PAD * scale))

/-- The slot rectangle of a button in the sense of the layout description
(§4.1): left edge `currentPos.x`, top edge `currentPos.y`, width and height the
button diameter. -/
def ButtonSlot.rect (s : ButtonSlot) : Rect :=
  ⟨s.X, s.Y, s.X + s.scaledButtonSize, s.Y + s.scaledButtonSize⟩

/-- A call into the renderer or a rasterization, as issued by `draw`. -/
inductive RenderOp where
  /-- Source `g_pHyprOpenGL->scissor(box)`, `none` for the null box -/
  | scissor (box : Option wlr_box)
  /-- Source `g_pHyprOpenGL->renderRect(box, ...)` -/
  | renderRect (box : wlr_box)
  /-- Source `renderBarTitle(bufferSize, scale)` rasterizing `m_szLastTitle` -/
  | renderBarTitle (bufferSize : Vector2D) (scale : ℚ) (title : String)
  /-- Source `renderBarButtons(bufferSize, scale)` rasterizing the circles -/
  | renderBarButtons (bufferSize : Vector2D) (scale : ℚ) (slots : List ButtonSlot)
  /-- Source `renderText(button.iconTex, button.icon, ..., BUFSIZE, scale, ...)` -/
  | renderText (text : String) (bufferSize : Vector2D)
  /-- Source `g_pHyprOpenGL->renderTexture(tex, box, ...)` -/
  | renderTexture (tex : CTexture) (box : wlr_box)
  /-- Source `g_pLayoutManager->getCurrentLayout()->recalculateWindow(m_pWindow)` -/
  | recalculateWindow
deriving DecidableEq

/-- Is the operation a title rasterization (`renderBarTitle`)? -/
def RenderOp.isTitleRaster : RenderOp → Bool
  | RenderOp.renderBarTitle _ _ _ => true
  | _ => false

/-- Is the operation a button-overlay rasterization (`renderBarButtons`)? -/
def RenderOp.isButtonsRaster : RenderOp → Bool
  | RenderOp.renderBarButtons _ _ _ => true
  | _ => false

/-- Is the operation an icon rasterization (`renderText`)? -/
def RenderOp.isIconRaster : RenderOp → Bool
  | RenderOp.renderText _ _ => true
  | _ => false

/-- Is the operation any rasterization? -/
def RenderOp.isRaster (op : RenderOp) : Bool :=
  op.isTitleRaster || op.isButtonsRaster || op.isIconRaster

/-- The loop of `renderBarButtonsText` over the registry, with the running
`int offset`: rasterizes a missing icon, then blits the icon texture. Returns
the registry with the updated `iconTex` members and the operations issued. -/
def renderBarButtonsTextLoop (barBox : wlr_box) (scale : ℚ) :
    List SHyprButton → Int → List SHyprButton × List RenderOp
  | [], _ => ([], [])
  | button :: bs, offset =>
    let scaledButtonsPad : ℚ := BUTTONS_PAD * scale
    let scaledButtonSize : ℚ := button.size * scale
    let render : Bool := decide (button.iconTex.m_iTexID = 0) && !button.icon.isEmpty
    let button1 : SHyprButton :=
      if render then { button with iconTex := button.iconTex.allocate } else button
    let ops1 : List RenderOp :=
      if render then [RenderOp.renderText button.icon ⟨scaledButtonSize, scaledButtonSize⟩] else []
    if button1.iconTex.m_iTexID = 0 then
      let r := renderBarButtonsTextLoop barBox scale bs offset
      (button1 :: r.1, ops1 ++ r.2)
    else
      let pos : wlr_box :=
        ⟨toInt (barBox.x + barBox.width - offset - scaledButtonSize * (3 / 2)),
         toInt (barBox.y + (barBox.height - scaledButtonSize) / 2),
         toInt scaledButtonSize, toInt scaledButtonSize⟩
      let r := renderBarButtonsTextLoop barBox scale bs (toInt (offset + (scaledButtonsPad + scaledButtonSize)))
      (button1 :: r.1, ops1 ++ RenderOp.renderTexture button1.iconTex pos :: r.2)

/-- Source: `CHyprBar::renderBarButtonsText`. -/
def renderBarButtonsText (barBox : wlr_box) (scale : ℚ) (buttons : List SHyprButton) :
    List SHyprButton × List RenderOp :=
  renderBarButtonsTextLoop barBox scale buttons (toInt (BUTTONS_PAD * scale))

/-- Rounding of `std::round`: to the nearest integer, halves away from zero. -/
def cround (q : ℚ) : Int :=
  if 0 ≤ q then ⌊q + 1 / 2⌋ else -⌊-q + 1 / 2⌋

/-- Modelled from the spec: the compositor helper `scaleBox(box, scale)` is not
part of this repository; every member of the box is multiplied by the monitor
scale and rounded to an integer device pixel (§4.1, §4.3). -/
def scaleBox (box : wlr_box) (scale : ℚ) : wlr_box :=
  ⟨cround (box.x * scale), cround (box.y * scale), cround (box.width * scale), cround (box.height * scale)⟩

/-- The buffer size `BARBUF` computed by `draw`:
`Vector2D{(int)m_vLastWindowSize.x + 2 * BORDERSIZE, *PHEIGHT} * pMonitor->scale`. -/
def drawBARBUF (h : Host) (bar : CHyprBar) (pMonitor : CMonitor) : Vector2D :=
  ⟨((toInt bar.m_vLastWindowSize.x + 2 * h.BORDERSIZE : Int) : ℚ) * pMonitor.scale,
   (h.PHEIGHT : ℚ) * pMonitor.scale⟩

/-- The box `titleBarBox` computed by `draw`: its initializer, the two
`+= offset` updates (each converting back to `int`) and `scaleBox`. -/
def drawTitleBarBox (h : Host) (bar : CHyprBar) (pMonitor : CMonitor) (offset : Vector2D) : wlr_box :=
  let x0 : Int := toInt ((toInt bar.m_vLastWindowPos.x : ℚ) - h.BORDERSIZE - pMonitor.vecPosition.x)
  let y0 : Int := toInt ((toInt bar.m_vLastWindowPos.y : ℚ) - h.BORDERSIZE - h.PHEIGHT - pMonitor.vecPosition.y)
  let titleBarBox : wlr_box :=
    ⟨toInt (x0 + offset.x), toInt (y0 + offset.y),
     toInt bar.m_vLastWindowSize.x + 2 * h.BORDERSIZE, h.PHEIGHT + h.PROUNDING * 3⟩
  scaleBox titleBarBox pMonitor.scale

/-- The box `windowBox` that `draw` writes into the stencil when rounding is on. -/
def drawWindowBox (bar : CHyprBar) (pMonitor : CMonitor) (offset : Vector2D) : wlr_box :=
  scaleBox
    ⟨toInt ((toInt bar.m_vLastWindowPos.x : ℚ) + offset.x - pMonitor.vecPosition.x),
     toInt ((toInt bar.m_vLastWindowPos.y : ℚ) + offset.y - pMonitor.vecPosition.y),
     toInt bar.m_vLastWindowSize.x, toInt bar.m_vLastWindowSize.y⟩
    pMonitor.scale

/-- Result of one `draw` call: the bar, the registry (whose `iconTex` members
`draw` may create) and the operations issued, in order. -/
structure DrawResult where
  bar : CHyprBar
  buttons : List SHyprButton
  ops : List RenderOp

/-- Source: `CHyprBar::draw`. Colours, opacity and the GL stencil state are not
modelled; the renderer calls and rasterizations are recorded in program order. -/
def draw (h : Host) (bar : CHyprBar) (pMonitor : CMonitor) (_a : ℚ) (offset : Vector2D) : DrawResult :=
  if !h.windowValidMapped then
    ⟨bar, h.buttons, []⟩
  else if !h.decorate then
    ⟨bar, h.buttons, []⟩
  else if h.PHEIGHT < 1 then
    ⟨{ bar with m_iLastHeight := h.PHEIGHT }, h.buttons, []⟩
  else
    let bar1 : CHyprBar := { bar with m_seExtents := ⟨⟨0, ((h.PHEIGHT + 1 : Int) : ℚ)⟩, ⟨0, 0⟩⟩ }
    let BARBUF := drawBARBUF h bar pMonitor
    let titleBarBox := drawTitleBarBox h bar pMonitor offset
    let ops1 : List RenderOp :=
      RenderOp.scissor (some titleBarBox) ::
        ((if h.PROUNDING ≠ 0 then [RenderOp.renderRect (drawWindowBox bar pMonitor offset)] else []) ++
          [RenderOp.renderRect titleBarBox])
    -- render title
    let renderTitle : Bool :=
      decide (bar1.m_szLastTitle ≠ h.m_szTitle) || bar1.m_bWindowSizeChanged ||
        decide (bar1.m_tTextTex.m_iTexID = 0)
    let bar2 : CHyprBar :=
      if renderTitle then
        { bar1 with m_szLastTitle := h.m_szTitle, m_tTextTex := bar1.m_tTextTex.allocate }
      else bar1
    let ops2 : List RenderOp :=
      if renderTitle then [RenderOp.renderBarTitle BARBUF pMonitor.scale h.m_szTitle] else []
    let textBox : wlr_box := ⟨titleBarBox.x, titleBarBox.y, toInt BARBUF.x, toInt BARBUF.y⟩
    let ops3 : List RenderOp := [RenderOp.renderTexture bar2.m_tTextTex textBox]
    let renderButtons : Bool := bar2.m_bButtonsDirty || bar2.m_bWindowSizeChanged
    let bar3 : CHyprBar :=
      if renderButtons then
        { bar2 with m_tButtonsTex := bar2.m_tButtonsTex.allocate, m_bButtonsDirty := false }
      else bar2
    let ops4 : List RenderOp :=
      if renderButtons then
        [RenderOp.renderBarButtons BARBUF pMonitor.scale (renderBarButtons BARBUF pMonitor.scale h.buttons)]
      else []
    let ops5 : List RenderOp := [RenderOp.renderTexture bar3.m_tButtonsTex textBox, RenderOp.scissor none]
    let icons := renderBarButtonsText textBox pMonitor.scale h.buttons
    let bar4 : CHyprBar := { bar3 with m_bWindowSizeChanged := false }
    -- dynamic updates change the extents
    let ops6 : List RenderOp :=
      if bar4.m_iLastHeight ≠ h.PHEIGHT then [RenderOp.recalculateWindow] else []
    ⟨{ bar4 with m_iLastHeight := h.PHEIGHT }, icons.1, ops1 ++ ops2 ++ ops3 ++ ops4 ++ ops5 ++ icons.2 ++ ops6⟩

/-- Source: `CHyprBar::damageEntire`: the box handed to `g_pHyprRenderer->damageBox`. -/
def damageEntire (bar : CHyprBar) : wlr_box :=
  ⟨toInt (bar.m_vLastWindowPos.x - bar.m_seExtents.topLeft.x - 2),
   toInt (bar.m_vLastWindowPos.y - bar.m_seExtents.topLeft.y - 2),
   toInt (bar.m_vLastWindowSize.x + bar.m_seExtents.topLeft.x + bar.m_seExtents.bottomRight.x + 4),
   toInt bar.m_seExtents.topLeft.y + 4⟩

/-- Source: `CHyprBar::updateWindow`; returns the updated bar and the box of the
final `damageEntire()` call. -/
def updateWindow (h : Host) (bar : CHyprBar) : CHyprBar × wlr_box :=
  let WORKSPACEOFFSET : Vector2D :=
    match h.workspaceOffset with
    | some o => if !h.m_bPinned then o else ⟨0, 0⟩
    | none => ⟨0, 0⟩
  let bar1 : CHyprBar :=
    if bar.m_vLastWindowSize ≠ h.m_vRealSize then { bar with m_bWindowSizeChanged := true } else bar
  let bar2 : CHyprBar :=
    { bar1 with
      m_vLastWindowPos := ⟨h.m_vRealPosition.x + WORKSPACEOFFSET.x, h.m_vRealPosition.y + WORKSPACEOFFSET.y⟩,
      m_vLastWindowSize := h.m_vRealSize }
  (bar2, damageEntire bar2)

/-! ## Event sequences and the concrete scenario -/

/-- Is the dispatcher call an `exec` (a button command)? -/
def Action.isExec : Action → Bool
  | Action.exec _ => true
  | Action.mouse _ => false

/-- Is the dispatcher call a drag start or a drag stop (a `mouse` dispatch)? -/
def Action.isDrag : Action → Bool
  | Action.exec _ => false
  | Action.mouse _ => true

/-- The gesture press, first move, further moves, release (all for the focused window). -/
def dragGesture (p m : Vector2D) (ms : List Vector2D) (q : Vector2D) : List PointerEvent :=
  press p :: PointerEvent.move m :: (ms.map PointerEvent.move ++ [release q])

/-- A sequence of button events in which presses and releases alternate, starting
with a press: one press/release pair per list element (focused window). -/
def clicks : List (Vector2D × Vector2D) → List PointerEvent
  | [] => []
  | (p, q) :: ps => press p :: release q :: clicks ps

/-- Presses and releases alternate in the sequence (moves may occur anywhere) and
every button event is delivered while the window is focused; `expectPress` tells
whether the next button event has to be a press. -/
def Alternates : Bool → List PointerEvent → Prop
  | _, [] => True
  | expectPress, PointerEvent.move _ :: es => Alternates expectPress es
  | expectPress, PointerEvent.button focused pressed _ :: es =>
    focused = true ∧ pressed = expectPress ∧ Alternates (!expectPress) es

/-- Decision procedure for `Alternates`. -/
def Alternates.dec : (expectPress : Bool) → (es : List PointerEvent) → Decidable (Alternates expectPress es)
  | _, [] => isTrue trivial
  | expectPress, PointerEvent.move _ :: es => Alternates.dec expectPress es
  | expectPress, PointerEvent.button focused pressed _ :: es =>
    match Alternates.dec (!expectPress) es with
    | isTrue ht =>
      if hf : focused = true then
        if hp : pressed = expectPress then isTrue ⟨hf, hp, ht⟩
        else isFalse (fun hn => hp hn.2.1)
      else isFalse (fun hn => hf hn.1)
    | isFalse hn => isFalse (fun ht => hn ht.2.2)

instance (expectPress : Bool) (es : List PointerEvent) : Decidable (Alternates expectPress es) :=
  Alternates.dec expectPress es

/-- A button of diameter 12 without icon, as in the layout scenario of §8. -/
def scenarioButton (cmd : String) : SHyprButton :=
  { cmd := cmd, col := ⟨0, 0, 0, 1⟩, size := 12, icon := "", iconTex := ⟨0⟩ }

/-- The layout scenario of §8: window at (100,100) of size 800×600, border 2,
bar height 30, no rounding, two buttons of diameter 12. -/
def scenarioHost : Host :=
  { m_vRealPosition := ⟨100, 100⟩, m_vRealSize := ⟨800, 600⟩, m_szTitle := "term",
    BORDERSIZE := 2, windowValidMapped := true, decorate := true, m_bPinned := false,
    workspaceOffset := none, PHEIGHT := 30, PBORDER := 2, PROUNDING := 0,
    buttons := [scenarioButton "close", scenarioButton "maximize"] }

/-- A freshly constructed bar for the scenario window: position and size captured
from the window, no texture yet, interaction flags clear. -/
def scenarioBar : CHyprBar :=
  { m_seExtents := ⟨⟨0, 0⟩, ⟨0, 0⟩⟩, m_vLastWindowPos := ⟨100, 100⟩, m_vLastWindowSize := ⟨800, 600⟩,
    m_tTextTex := ⟨0⟩, m_tButtonsTex := ⟨0⟩, m_bWindowSizeChanged := false, m_bButtonsDirty := true,
    m_szLastTitle := "", m_bDraggingThis := false, m_bDragPending := false, m_bCancelledDown := false,
    m_iLastHeight := 0 }

/-- The monitor of the scenario: at the origin, scale 1. -/
def scenarioMonitor : CMonitor := ⟨1, ⟨0, 0⟩⟩

/-- The scenario bar after its first completed `draw`. -/
def drawnBar : CHyprBar :=
  (draw scenarioHost scenarioBar scenarioMonitor 1 ⟨0, 0⟩).bar

/-- The scenario window after a change of title and of size. -/
def changedHost : Host :=
  { scenarioHost with m_szTitle := "editor", m_vRealSize := ⟨640, 480⟩ }

/-- A narrow window: the scenario window shrunk to 20×20 and without border. -/
def narrowHost : Host :=
  { scenarioHost with m_vRealSize := ⟨20, 20⟩, BORDERSIZE := 0, PBORDER := 0 }

/-- The bar of the narrow window. -/
def narrowBar : CHyprBar :=
  { scenarioBar with m_vLastWindowSize := ⟨20, 20⟩ }

/-! ## Auxiliary facts about the interaction -/

theorem buttonLoop_eq_none (h : Host) (bar : CHyprBar) (c : Vector2D) :
    ∀ (bs : List SHyprButton) (off : ℚ),
      buttonLoop h bar c bs off = none ↔ ∀ r ∈ hitRects h bar bs off, ¬ r.contains c := by
  intro bs
  induction bs with
  | nil => intro off; simp [buttonLoop, hitRects]
  | cons b bs ih =>
    intro off
    by_cases hc : (hitRect h bar b off).contains c
    · simp [buttonLoop, hitRects, hc]
    · simp [buttonLoop, hitRects, hc, ih]

theorem buttonLoop_first (h : Host) (bar : CHyprBar) (c : Vector2D) :
    ∀ (bs : List SHyprButton) (off : ℚ),
      (∃ r ∈ hitRects h bar bs off, r.contains c) →
      ∃ (i : Nat) (b : SHyprButton) (r : Rect),
        bs[i]? = some b ∧ (hitRects h bar bs off)[i]? = some r ∧ r.contains c ∧
        (∀ (j : Nat) (r' : Rect), j < i → (hitRects h bar bs off)[j]? = some r' → ¬ r'.contains c) ∧
        buttonLoop h bar c bs off = some b.cmd := by
  intro bs
  induction bs with
  | nil => intro off hex; simp [hitRects] at hex
  | cons b bs ih =>
    intro off hex
    by_cases hc : (hitRect h bar b off).contains c
    · refine ⟨0, b, hitRect h bar b off, by simp, by simp [hitRects], hc, ?_, by simp [buttonLoop, hc]⟩
      intro j r' hj
      omega
    · have hex' : ∃ r ∈ hitRects h bar bs (off + (BUTTONS_PAD + b.size)), r.contains c := by
        obtain ⟨r, hr, hrc⟩ := hex
        simp only [hitRects, List.mem_cons] at hr
        rcases hr with rfl | hr
        · exact absurd hrc hc
        · exact ⟨r, hr, hrc⟩
      obtain ⟨i, b', r, hb, hr, hrc, hfirst, hloop⟩ := ih _ hex'
      refine ⟨i + 1, b', r, by simpa using hb, by simpa [hitRects] using hr, hrc, ?_, by simp [buttonLoop, hc, hloop]⟩
      intro j r' hj hjr
      cases j with
      | zero =>
        simp [hitRects] at hjr
        rw [← hjr]; exact hc
      | succ j =>
        simp only [hitRects, List.getElem?_cons_succ] at hjr
        exact hfirst j r' (by omega) hjr

theorem run_append (h : Host) (es fs : List PointerEvent) :
    ∀ bar : CHyprBar,
      (run h bar (es ++ fs)).bar = (run h (run h bar es).bar fs).bar ∧
      (run h bar (es ++ fs)).actions = (run h bar es).actions ++ (run h (run h bar es).bar fs).actions ∧
      (run h bar (es ++ fs)).cancelled
        = (run h bar es).cancelled ++ (run h (run h bar es).bar fs).cancelled := by
  induction es with
  | nil => intro bar; simp [run]
  | cons e es ih =>
    intro bar
    have := ih (step h bar e).bar
    simp [run, this]

theorem run_moves_not_pending (h : Host) (ms : List Vector2D) (bar : CHyprBar)
    (hp : bar.m_bDragPending = false) :
    (run h bar (ms.map PointerEvent.move)).bar = bar ∧
    (run h bar (ms.map PointerEvent.move)).actions = [] := by
  induction ms with
  | nil => simp [run]
  | cons m ms ih =>
    simp [run, step, onMouseMove, hp, ih]

theorem onMouseDown_press_miss (h : Host) (bar : CHyprBar) (p : Vector2D)
    (hin : inBarBox h bar (cursorRelativeToBar h p))
    (hmiss : ∀ r ∈ hitRects h bar h.buttons 0, ¬ r.contains (cursorRelativeToBar h p)) :
    onMouseDown h bar true false true p =
      ⟨{ bar with m_bCancelledDown := true, m_bDragPending := true }, true, []⟩ := by
  have hloop := (buttonLoop_eq_none h bar (cursorRelativeToBar h p) h.buttons 0).2 hmiss
  simp [onMouseDown, hin, hloop]

theorem onMouseDown_release_dragging (h : Host) (bar : CHyprBar) (q : Vector2D)
    (hd : bar.m_bDraggingThis = true) :
    (onMouseDown h bar true false false q).actions = [dragStop] ∧
    (onMouseDown h bar true false false q).bar.m_bDragPending = false ∧
    (onMouseDown h bar true false false q).bar.m_bDraggingThis = false := by
  by_cases hin : inBarBox h bar (cursorRelativeToBar h q) <;>
    simp [onMouseDown, hin, hd]

/-! ## C1: press on the bar body, move, release -/

/-- Claim C1. For the focused window and an idle bar: a press inside the bar box
that lies in no button's hit-test rectangle, then one or more moves, then a
release anywhere, dispatches nothing at the press, exactly one drag start at the
first move, nothing at the later moves and exactly one drag stop at the release
(so the dispatches are drag start, drag stop, in that order), dispatches no
`exec`, and ends with `m_bDragPending` and `m_bDraggingThis` both false. -/
theorem drag_gesture_start_then_stop (h : Host) (bar : CHyprBar) (p m q : Vector2D)
    (ms : List Vector2D) (hidle : Idle bar)
    (hin : inBarBox h bar (cursorRelativeToBar h p))
    (hmiss : ∀ r ∈ hitRects h bar h.buttons 0, ¬ r.contains (cursorRelativeToBar h p)) :
    (run h bar [press p]).actions = [] ∧
    (run h bar [press p, PointerEvent.move m]).actions = [dragStart] ∧
    (run h bar (press p :: PointerEvent.move m :: ms.map PointerEvent.move)).actions = [dragStart] ∧
    (run h bar (dragGesture p m ms q)).actions = [dragStart, dragStop] ∧
    ((run h bar (dragGesture p m ms q)).actions.filter Action.isExec).length = 0 ∧
    (run h bar (dragGesture p m ms q)).bar.m_bDragPending = false ∧
    (run h bar (dragGesture p m ms q)).bar.m_bDraggingThis = false := by
  obtain ⟨hp, hd, hc⟩ := hidle
  have hpress := onMouseDown_press_miss h bar p hin hmiss
  -- the bar after the press and the first move
  let bar2 : CHyprBar :=
    { bar with m_bCancelledDown := true, m_bDragPending := false, m_bDraggingThis := true }
  have hmoves := run_moves_not_pending h ms bar2 rfl
  have happ := run_append h (ms.map PointerEvent.move) [release q] bar2
  have hrel := onMouseDown_release_dragging h bar2 q rfl
  simp only [hmoves.1] at happ
  refine ⟨?_, ?_, ?_, ?_, ?_, ?_, ?_⟩
  · simp [run, step, press, hpress]
  · simp [run, step, press, hpress, onMouseMove]
  · simp [run, step, press, hpress, onMouseMove]
    exact hmoves.2
  · simp [dragGesture, run, step, press, hpress, onMouseMove]
    rw [happ.2.1, hmoves.2]
    simp [run, step, release, hrel.1]
  · simp [dragGesture, run, step, press, hpress, onMouseMove]
    rw [happ.2.1, hmoves.2]
    simp [run, step, release, hrel.1, dragStop, dragStart, Action.isExec]
  · simp [dragGesture, run, step, press, hpress, onMouseMove]
    rw [happ.1]
    simp [run, step, release, hrel.2.1]
  · simp [dragGesture, run, step, press, hpress, onMouseMove]
    rw [happ.1]
    simp [run, step, release, hrel.2.2]

/-- Witness for C1 in the scenario of §8: press on the bar body at (108,78),
three moves, release at the screen origin. -/
theorem drag_gesture_start_then_stop_witness :
    Idle scenarioBar ∧
    inBarBox scenarioHost scenarioBar (cursorRelativeToBar scenarioHost ⟨108, 78⟩) ∧
    (∀ r ∈ hitRects scenarioHost scenarioBar scenarioHost.buttons 0,
      ¬ r.contains (cursorRelativeToBar scenarioHost ⟨108, 78⟩)) ∧
    (run scenarioHost scenarioBar (dragGesture ⟨108, 78⟩ ⟨111, 78⟩ [⟨120, 90⟩, ⟨50, 40⟩] ⟨0, 0⟩)).actions
      = [dragStart, dragStop] :=
  have h1 : Idle scenarioBar := by simp [Idle, scenarioBar]
  have h2 : inBarBox scenarioHost scenarioBar (cursorRelativeToBar scenarioHost ⟨108, 78⟩) := by
    norm_num [inBarBox, VECINRECT, cursorRelativeToBar, scenarioHost, scenarioBar]
  have h3 : ∀ r ∈ hitRects scenarioHost scenarioBar scenarioHost.buttons 0,
      ¬ r.contains (cursorRelativeToBar scenarioHost ⟨108, 78⟩) := by
    norm_num [hitRects, hitRect, Rect.contains, VECINRECT, cursorRelativeToBar, scenarioHost,
      scenarioBar, scenarioButton, toInt, Vector2D.floor, BUTTONS_PAD]
  ⟨h1, h2, h3,
    (drag_gesture_start_then_stop scenarioHost scenarioBar ⟨108, 78⟩ ⟨111, 78⟩ ⟨0, 0⟩
      [⟨120, 90⟩, ⟨50, 40⟩] h1 h2 h3).2.2.2.1⟩

theorem onMouseDown_release_inside (h : Host) (bar : CHyprBar) (q : Vector2D)
    (hin : inBarBox h bar (cursorRelativeToBar h q)) :
    onMouseDown h bar true false false q =
      ⟨{ bar with m_bCancelledDown := false, m_bDraggingThis := false, m_bDragPending := false },
        bar.m_bCancelledDown, if bar.m_bDraggingThis then [dragStop] else []⟩ := by
  cases hc : bar.m_bCancelledDown <;> simp [onMouseDown, hin, hc]

theorem onMouseDown_outside (h : Host) (bar : CHyprBar) (pressed : Bool) (q : Vector2D)
    (hout : ¬ inBarBox h bar (cursorRelativeToBar h q)) :
    onMouseDown h bar true false pressed q =
      ⟨{ bar with m_bDraggingThis := false, m_bDragPending := false }, false,
        if bar.m_bDraggingThis then [dragStop] else []⟩ := by
  simp [onMouseDown, hout]

/-! ## C2: click on a button -/

/-- Claim C2 as stated fails: in the narrow window (20 px wide, two buttons of
diameter 12) the second button's hit-test rectangle spans x from -19 to -2 in bar
coordinates, left of the bar box; a press and release at (-10, 15) lies in that
rectangle, yet the bar-box guard of `onMouseDown` discards both events and no
command is dispatched. -/
theorem click_in_hit_rect_outside_bar_box_ignored :
    Idle narrowBar ∧
    (∃ r ∈ hitRects narrowHost narrowBar narrowHost.buttons 0,
      r.contains (cursorRelativeToBar narrowHost ⟨90, 85⟩)) ∧
    (run narrowHost narrowBar [press ⟨90, 85⟩, release ⟨90, 85⟩]).actions = [] := by
  refine ⟨by simp [Idle, narrowBar, scenarioBar], ?_, ?_⟩
  · refine ⟨⟨-19, 9, -2, 21⟩, ?_, ?_⟩
    · norm_num [hitRects, hitRect, narrowHost, narrowBar, scenarioHost, scenarioBar, scenarioButton,
        toInt, Vector2D.floor, BUTTONS_PAD]
    · norm_num [Rect.contains, VECINRECT, cursorRelativeToBar, narrowHost, scenarioHost]
  · norm_num [run, step, press, release, onMouseDown, inBarBox, VECINRECT, cursorRelativeToBar,
      narrowHost, narrowBar, scenarioHost, scenarioBar]

/-- Claim C2, amended. For the focused window, an idle bar and every button
registry: a press at a position inside the bar box that lies in at least one
button's hit-test rectangle, followed by a release at the same position,
dispatches exactly one call, the `exec` of the first button in registry order
whose rectangle contains the position, and no drag start or stop; the press
leaves `m_bDragPending` false, and a move after the press dispatches nothing. -/
theorem button_click_execs_first_hit (h : Host) (bar : CHyprBar) (p m : Vector2D)
    (hidle : Idle bar)
    (hin : inBarBox h bar (cursorRelativeToBar h p))
    (hhit : ∃ r ∈ hitRects h bar h.buttons 0, r.contains (cursorRelativeToBar h p)) :
    ∃ (i : Nat) (b : SHyprButton) (r : Rect),
      h.buttons[i]? = some b ∧ (hitRects h bar h.buttons 0)[i]? = some r ∧
      r.contains (cursorRelativeToBar h p) ∧
      (∀ (j : Nat) (r' : Rect), j < i → (hitRects h bar h.buttons 0)[j]? = some r' →
        ¬ r'.contains (cursorRelativeToBar h p)) ∧
      (run h bar [press p, release p]).actions = [Action.exec b.cmd] ∧
      (run h bar [press p, release p]).actions.filter Action.isDrag = [] ∧
      (run h bar [press p]).bar.m_bDragPending = false ∧
      (run h bar [press p, PointerEvent.move m]).actions = [Action.exec b.cmd] ∧
      (run h bar [press p, PointerEvent.move m]).bar.m_bDraggingThis = false := by
  obtain ⟨hp, hd, hc⟩ := hidle
  obtain ⟨i, b, r, hb, hr, hrc, hfirst, hloop⟩ :=
    buttonLoop_first h bar (cursorRelativeToBar h p) h.buttons 0 hhit
  have hpress : onMouseDown h bar true false true p =
      ⟨{ bar with m_bCancelledDown := true }, true, [Action.exec b.cmd]⟩ := by
    simp [onMouseDown, hin, hloop]
  have hin' : inBarBox h { bar with m_bCancelledDown := true } (cursorRelativeToBar h p) := hin
  have hrel := onMouseDown_release_inside h { bar with m_bCancelledDown := true } p hin'
  have hclick : (run h bar [press p, release p]).actions = [Action.exec b.cmd] := by
    simp only [run, step, press, release, hpress, hrel]
    simp [hd]
  refine ⟨i, b, r, hb, hr, hrc, hfirst, hclick, ?_, ?_, ?_, ?_⟩
  · rw [hclick]
    simp [Action.isDrag]
  · simp only [run, step, press, hpress]
    exact hp
  · simp only [run, step, press, hpress, onMouseMove]
    simp [hp]
  · simp only [run, step, press, hpress, onMouseMove]
    simp [hp, hd]

/-- Witness for C2 (amended) in the scenario of §8: a click at (890,80), bar
coordinates (792,12), inside the first button's hit-test rectangle. -/
theorem button_click_execs_first_hit_witness :
    Idle scenarioBar ∧
    inBarBox scenarioHost scenarioBar (cursorRelativeToBar scenarioHost ⟨890, 80⟩) ∧
    (∃ r ∈ hitRects scenarioHost scenarioBar scenarioHost.buttons 0,
      r.contains (cursorRelativeToBar scenarioHost ⟨890, 80⟩)) ∧
    (∃ (i : Nat) (b : SHyprButton), scenarioHost.buttons[i]? = some b ∧
      (run scenarioHost scenarioBar [press ⟨890, 80⟩, release ⟨890, 80⟩]).actions
        = [Action.exec b.cmd]) :=
  have h1 : Idle scenarioBar := by simp [Idle, scenarioBar]
  have h2 : inBarBox scenarioHost scenarioBar (cursorRelativeToBar scenarioHost ⟨890, 80⟩) := by
    norm_num [inBarBox, VECINRECT, cursorRelativeToBar, scenarioHost, scenarioBar]
  have h3 : ∃ r ∈ hitRects scenarioHost scenarioBar scenarioHost.buttons 0,
      r.contains (cursorRelativeToBar scenarioHost ⟨890, 80⟩) := by
    refine ⟨⟨782, 10, 799, 22⟩, ?_, ?_⟩
    · norm_num [hitRects, hitRect, scenarioHost, scenarioBar, scenarioButton,
        toInt, Vector2D.floor, BUTTONS_PAD]
    · norm_num [Rect.contains, VECINRECT, cursorRelativeToBar, scenarioHost]
  ⟨h1, h2, h3,
    match button_click_execs_first_hit scenarioHost scenarioBar ⟨890, 80⟩ ⟨891, 80⟩ h1 h2 h3 with
    | ⟨i, b, _, hb, _, _, _, hact, _⟩ => ⟨i, b, hb, hact⟩⟩

theorem inBarBox_congr (h : Host) (bar bar' : CHyprBar) (c : Vector2D)
    (hs : bar'.m_vLastWindowSize = bar.m_vLastWindowSize) :
    inBarBox h bar' c ↔ inBarBox h bar c := by
  simp [inBarBox, hs]

theorem onMouseDown_size (h : Host) (bar : CHyprBar) (focused cancelled pressed : Bool)
    (mouse : Vector2D) :
    (onMouseDown h bar focused cancelled pressed mouse).bar.m_vLastWindowSize
      = bar.m_vLastWindowSize := by
  by_cases hin : inBarBox h bar (cursorRelativeToBar h mouse)
  · cases focused <;> cases pressed <;> simp only [onMouseDown, hin] <;>
      first
        | rfl
        | (cases hl : buttonLoop h bar (cursorRelativeToBar h mouse) h.buttons 0 <;> simp)
  · cases focused <;> simp [onMouseDown, hin]

theorem step_size (h : Host) (bar : CHyprBar) (e : PointerEvent) :
    (step h bar e).bar.m_vLastWindowSize = bar.m_vLastWindowSize := by
  cases e with
  | button focused pressed mouse => exact onMouseDown_size h bar focused false pressed mouse
  | move coords =>
    simp only [step, onMouseMove]
    split <;> rfl

theorem press_cancelled (h : Host) (bar : CHyprBar) (p : Vector2D) :
    (step h bar (press p)).cancelled = decide (inBarBox h bar (cursorRelativeToBar h p)) ∧
    (step h bar (press p)).bar.m_bCancelledDown
      = (decide (inBarBox h bar (cursorRelativeToBar h p)) || bar.m_bCancelledDown) := by
  by_cases hin : inBarBox h bar (cursorRelativeToBar h p)
  · simp only [step, press, onMouseDown]
    cases hl : buttonLoop h bar (cursorRelativeToBar h p) h.buttons 0 <;> simp [hin]
  · simp [step, press, onMouseDown_outside h bar true p hin, hin]

theorem release_cancelled (h : Host) (bar : CHyprBar) (q : Vector2D) :
    (step h bar (release q)).cancelled
      = (decide (inBarBox h bar (cursorRelativeToBar h q)) && bar.m_bCancelledDown) ∧
    (step h bar (release q)).bar.m_bCancelledDown
      = (!decide (inBarBox h bar (cursorRelativeToBar h q)) && bar.m_bCancelledDown) := by
  by_cases hin : inBarBox h bar (cursorRelativeToBar h q)
  · simp [step, release, onMouseDown_release_inside h bar q hin, hin]
  · simp [step, release, onMouseDown_outside h bar false q hin, hin]

theorem clicks_cancelled (h : Host) (bar0 : CHyprBar) :
    ∀ (ps : List (Vector2D × Vector2D)) (bar : CHyprBar) (k : Nat) (p q : Vector2D),
      bar.m_vLastWindowSize = bar0.m_vLastWindowSize →
      bar.m_bCancelledDown = false →
      ps[k]? = some (p, q) →
      (∀ (j : Nat) (p' q' : Vector2D), j < k → ps[j]? = some (p', q') →
        inBarBox h bar0 (cursorRelativeToBar h p') → inBarBox h bar0 (cursorRelativeToBar h q')) →
      (run h bar (clicks ps)).cancelled[2 * k + 1]?
        = some (decide (inBarBox h bar0 (cursorRelativeToBar h p) ∧
            inBarBox h bar0 (cursorRelativeToBar h q))) := by
  intro ps
  induction ps with
  | nil => intro bar k p q _ _ hk; simp at hk
  | cons pq ps ih =>
    obtain ⟨p0, q0⟩ := pq
    intro bar k p q hs hc hk hprev
    have hs1 : (step h bar (press p0)).bar.m_vLastWindowSize = bar0.m_vLastWindowSize := by
      rw [step_size, hs]
    have hs2 : (step h (step h bar (press p0)).bar (release q0)).bar.m_vLastWindowSize
        = bar0.m_vLastWindowSize := by
      rw [step_size, hs1]
    have hP := press_cancelled h bar p0
    have hR := release_cancelled h (step h bar (press p0)).bar q0
    rw [hc] at hP
    have e1 : decide (inBarBox h bar (cursorRelativeToBar h p0))
        = decide (inBarBox h bar0 (cursorRelativeToBar h p0)) :=
      decide_eq_decide.2 (inBarBox_congr h bar0 bar _ hs)
    have e2 : decide (inBarBox h (step h bar (press p0)).bar (cursorRelativeToBar h q0))
        = decide (inBarBox h bar0 (cursorRelativeToBar h q0)) :=
      decide_eq_decide.2 (inBarBox_congr h bar0 _ _ hs1)
    rw [e1] at hP
    rw [e2, hP.2] at hR
    cases k with
    | zero =>
      simp only [List.getElem?_cons_zero, Option.some.injEq, Prod.mk.injEq] at hk
      obtain ⟨rfl, rfl⟩ := hk
      simp only [clicks, run, Nat.mul_zero, Nat.zero_add, List.getElem?_cons_succ,
        List.getElem?_cons_zero, hR.1]
      simp [Bool.and_comm]
    | succ k =>
      simp only [List.getElem?_cons_succ] at hk
      have h0 := hprev 0 p0 q0 (Nat.succ_pos k) (by simp)
      have hc2 : (step h (step h bar (press p0)).bar (release q0)).bar.m_bCancelledDown = false := by
        rw [hR.2]
        by_cases hp0 : inBarBox h bar0 (cursorRelativeToBar h p0)
        · simp [h0 hp0]
        · simp [hp0]
      have := ih (step h (step h bar (press p0)).bar (release q0)).bar k p q hs2 hc2 hk
        (fun j p' q' hj hjp => hprev (j + 1) p' q' (by omega) (by simpa using hjp))
      have hidx : 2 * (k + 1) + 1 = (2 * k + 1) + 1 + 1 := by ring
      simp only [clicks, run, hidx, List.getElem?_cons_succ]
      exact this

theorem run_release_outside (h : Host) (bar0 : CHyprBar) (q : Vector2D)
    (hout : ¬ inBarBox h bar0 (cursorRelativeToBar h q)) :
    ∀ (es : List PointerEvent) (bar : CHyprBar) (i : Nat),
      bar.m_vLastWindowSize = bar0.m_vLastWindowSize →
      es[i]? = some (release q) →
      (run h bar es).cancelled[i]? = some false := by
  intro es
  induction es with
  | nil => intro bar i _ hi; simp at hi
  | cons e es ih =>
    intro bar i hs hi
    cases i with
    | zero =>
      simp only [List.getElem?_cons_zero, Option.some.injEq] at hi
      subst hi
      have hout' : ¬ inBarBox h bar (cursorRelativeToBar h q) :=
        fun hc => hout ((inBarBox_congr h bar0 bar _ hs).1 hc)
      simp [run, (release_cancelled h bar q).1, hout']
    | succ i =>
      simp only [List.getElem?_cons_succ] at hi
      simp only [run, List.getElem?_cons_succ]
      exact ih (step h bar e).bar i (by rw [step_size, hs]) hi

theorem clicks_getElem (ps : List (Vector2D × Vector2D)) :
    ∀ (k : Nat) (p q : Vector2D), ps[k]? = some (p, q) → (clicks ps)[2 * k + 1]? = some (release q) := by
  induction ps with
  | nil => intro k p q hk; simp at hk
  | cons pq ps ih =>
    obtain ⟨p0, q0⟩ := pq
    intro k p q hk
    cases k with
    | zero =>
      simp only [List.getElem?_cons_zero, Option.some.injEq, Prod.mk.injEq] at hk
      simp [clicks, hk.2]
    | succ k =>
      simp only [List.getElem?_cons_succ] at hk
      have hidx : 2 * (k + 1) + 1 = (2 * k + 1) + 1 + 1 := by ring
      simp only [clicks, hidx, List.getElem?_cons_succ]
      exact ih k p q hk

/-! ## C3: suppression of releases -/

/-- Claim C3 as stated fails twice on one alternating sequence. The first press
is inside the bar box and its release, outside the bar box, is not marked
cancelled (the bar-box guard returns first); the second press is outside the bar
box and its release, inside the bar box, is marked cancelled, because the guard
left `m_bCancelledDown` set. -/
theorem release_suppression_depends_on_release_position :
    inBarBox scenarioHost scenarioBar (cursorRelativeToBar scenarioHost ⟨108, 78⟩) ∧
    ¬ inBarBox scenarioHost scenarioBar (cursorRelativeToBar scenarioHost ⟨0, 0⟩) ∧
    (run scenarioHost scenarioBar
      (clicks [(⟨108, 78⟩, ⟨0, 0⟩), (⟨0, 0⟩, ⟨108, 78⟩)])).cancelled = [true, false, false, true] := by
  refine ⟨?_, ?_, ?_⟩
  · norm_num [inBarBox, VECINRECT, cursorRelativeToBar, scenarioHost, scenarioBar]
  · norm_num [inBarBox, VECINRECT, cursorRelativeToBar, scenarioHost, scenarioBar]
  · norm_num [clicks, run, step, press, release, onMouseDown, inBarBox, VECINRECT, cursorRelativeToBar,
      scenarioHost, scenarioBar, buttonLoop, hitRect, Rect.contains, scenarioButton, toInt,
      Vector2D.floor, BUTTONS_PAD]

/-- Claim C3, amended. For the focused window, an idle bar and every sequence of
press/release pairs: a release at a position outside the bar box is never marked
cancelled; and if every earlier press inside the bar box had its release inside
the bar box, the release of pair `k` is marked cancelled exactly when both its
press and the release itself are inside the bar box. -/
theorem release_cancelled_iff_press_and_release_inside (h : Host) (bar : CHyprBar)
    (ps : List (Vector2D × Vector2D)) (k : Nat) (p q : Vector2D)
    (hidle : Idle bar) (hk : ps[k]? = some (p, q)) :
    (¬ inBarBox h bar (cursorRelativeToBar h q) →
      (run h bar (clicks ps)).cancelled[2 * k + 1]? = some false) ∧
    ((∀ (j : Nat) (p' q' : Vector2D), j < k → ps[j]? = some (p', q') →
        inBarBox h bar (cursorRelativeToBar h p') → inBarBox h bar (cursorRelativeToBar h q')) →
      (run h bar (clicks ps)).cancelled[2 * k + 1]?
        = some (decide (inBarBox h bar (cursorRelativeToBar h p) ∧
            inBarBox h bar (cursorRelativeToBar h q)))) :=
  ⟨fun hout => run_release_outside h bar q hout (clicks ps) bar (2 * k + 1) rfl
      (clicks_getElem ps k p q hk),
   fun hprev => clicks_cancelled h bar ps bar k p q rfl hidle.2.2 hk hprev⟩

/-- Witness for C3 (amended): two clicks in the scenario of §8, the first on the
bar body, the second pressed on the bar body and released on a button; the
second release is marked cancelled. -/
theorem release_cancelled_iff_press_and_release_inside_witness :
    Idle scenarioBar ∧
    ([((⟨108, 78⟩ : Vector2D), (⟨109, 79⟩ : Vector2D)), (⟨108, 78⟩, ⟨890, 80⟩)])[1]?
      = some (⟨108, 78⟩, ⟨890, 80⟩) ∧
    (run scenarioHost scenarioBar
      (clicks [(⟨108, 78⟩, ⟨109, 79⟩), (⟨108, 78⟩, ⟨890, 80⟩)])).cancelled[2 * 1 + 1]?
      = some (decide (inBarBox scenarioHost scenarioBar (cursorRelativeToBar scenarioHost ⟨108, 78⟩) ∧
          inBarBox scenarioHost scenarioBar (cursorRelativeToBar scenarioHost ⟨890, 80⟩))) :=
  have h1 : Idle scenarioBar := by simp [Idle, scenarioBar]
  have h2 : ∀ (j : Nat) (p' q' : Vector2D), j < 1 →
      ([((⟨108, 78⟩ : Vector2D), (⟨109, 79⟩ : Vector2D)), (⟨108, 78⟩, ⟨890, 80⟩)])[j]? = some (p', q') →
      inBarBox scenarioHost scenarioBar (cursorRelativeToBar scenarioHost p') →
      inBarBox scenarioHost scenarioBar (cursorRelativeToBar scenarioHost q') := by
    intro j p' q' hj hjp _
    have hj0 : j = 0 := by omega
    subst hj0
    simp only [List.getElem?_cons_zero, Option.some.injEq, Prod.mk.injEq] at hjp
    obtain ⟨_, rfl⟩ := hjp
    norm_num [inBarBox, VECINRECT, cursorRelativeToBar, scenarioHost, scenarioBar]
  ⟨h1, rfl,
    (release_cancelled_iff_press_and_release_inside scenarioHost scenarioBar
      [(⟨108, 78⟩, ⟨109, 79⟩), (⟨108, 78⟩, ⟨890, 80⟩)] 1 ⟨108, 78⟩ ⟨890, 80⟩ h1 rfl).2 h2⟩

/-! ## C10: the flag pair as one state -/

theorem press_flags (h : Host) (bar : CHyprBar) (p : Vector2D)
    (hd : bar.m_bDraggingThis = false) :
    (step h bar (press p)).bar.m_bDraggingThis = false := by
  by_cases hin : inBarBox h bar (cursorRelativeToBar h p)
  · simp only [step, press, onMouseDown]
    cases hl : buttonLoop h bar (cursorRelativeToBar h p) h.buttons 0 <;> simp [hin, hd]
  · simp [step, press, onMouseDown_outside h bar true p hin]

theorem release_flags (h : Host) (bar : CHyprBar) (q : Vector2D) :
    (step h bar (release q)).bar.m_bDragPending = false ∧
    (step h bar (release q)).bar.m_bDraggingThis = false := by
  by_cases hin : inBarBox h bar (cursorRelativeToBar h q)
  · simp [step, release, onMouseDown_release_inside h bar q hin]
  · simp [step, release, onMouseDown_outside h bar false q hin]

theorem Alternates.take : ∀ (es : List PointerEvent) (e : Bool) (n : Nat),
    Alternates e es → Alternates e (es.take n) := by
  intro es
  induction es with
  | nil => intro e n _; simp [Alternates]
  | cons ev es ih =>
    intro e n halt
    cases n with
    | zero => simp [Alternates]
    | succ n =>
      cases ev with
      | move c =>
        simp only [List.take_succ_cons, Alternates] at halt ⊢
        exact ih e n halt
      | button f pr m =>
        simp only [List.take_succ_cons, Alternates] at halt ⊢
        exact ⟨halt.1, halt.2.1, ih _ n halt.2.2⟩

theorem run_alternates_flags (h : Host) :
    ∀ (es : List PointerEvent) (e : Bool) (bar : CHyprBar),
      Alternates e es →
      (e = true → bar.m_bDragPending = false) →
      bar.m_bDraggingThis = false ∨ (e = false ∧ bar.m_bDragPending = false) →
      ¬ ((run h bar es).bar.m_bDragPending = true ∧ (run h bar es).bar.m_bDraggingThis = true) := by
  intro es
  induction es with
  | nil =>
    intro e bar _ _ hinv
    simp only [run]
    rcases hinv with hd | ⟨_, hp⟩
    · simp [hd]
    · simp [hp]
  | cons ev es ih =>
    intro e bar halt hpend hinv
    cases ev with
    | move c =>
      simp only [Alternates] at halt
      simp only [run]
      by_cases hp : bar.m_bDragPending = true
      · have he : e = false := by
          cases e with
          | false => rfl
          | true => simp [hpend rfl] at hp
        refine ih e _ halt ?_ (Or.inr ⟨he, ?_⟩)
        · intro het; simp [he] at het
        · simp [step, onMouseMove, hp]
      · have hp' : bar.m_bDragPending = false := by simpa using hp
        have hstep : (step h bar (PointerEvent.move c)).bar = bar := by
          simp [step, onMouseMove, hp']
        rw [hstep]
        exact ih e bar halt hpend hinv
    | button f pr m =>
      simp only [Alternates] at halt
      obtain ⟨hf, hpr, halt⟩ := halt
      subst hf
      subst hpr
      simp only [run]
      cases pr with
      | true =>
        have hd : bar.m_bDraggingThis = false := by
          rcases hinv with hd | ⟨he, _⟩
          · exact hd
          · simp at he
        refine ih _ _ halt (by simp) (Or.inl ?_)
        exact press_flags h bar m hd
      | false =>
        have hr := release_flags h bar m
        exact ih _ _ halt (fun _ => hr.1) (Or.inl hr.2)

/-- Claim C10 as stated fails: a second press on the bar body while a drag is
active (press, move, press; for instance another mouse button) sets
`m_bDragPending` without clearing `m_bDraggingThis`, so both flags are true.
The same state is reached when the release of the drag arrives while another
window is focused (it is ignored) and the next press lands on the bar body. -/
theorem press_while_dragging_sets_both_flags :
    Idle scenarioBar ∧
    (run scenarioHost scenarioBar
      [press ⟨108, 78⟩, PointerEvent.move ⟨111, 78⟩, press ⟨108, 78⟩]).bar.m_bDragPending = true ∧
    (run scenarioHost scenarioBar
      [press ⟨108, 78⟩, PointerEvent.move ⟨111, 78⟩, press ⟨108, 78⟩]).bar.m_bDraggingThis = true ∧
    (run scenarioHost scenarioBar
      [press ⟨108, 78⟩, PointerEvent.move ⟨111, 78⟩, PointerEvent.button false false ⟨111, 78⟩,
        press ⟨108, 78⟩]).bar.m_bDragPending = true ∧
    (run scenarioHost scenarioBar
      [press ⟨108, 78⟩, PointerEvent.move ⟨111, 78⟩, PointerEvent.button false false ⟨111, 78⟩,
        press ⟨108, 78⟩]).bar.m_bDraggingThis = true := by
  refine ⟨by simp [Idle, scenarioBar], ?_, ?_, ?_, ?_⟩ <;>
    norm_num [run, step, press, onMouseDown, onMouseMove, inBarBox, VECINRECT, cursorRelativeToBar,
      scenarioHost, scenarioBar, buttonLoop, hitRect, Rect.contains, scenarioButton, toInt,
      Vector2D.floor, BUTTONS_PAD]

/-- Claim C10, amended. For the focused window and an idle bar: along every
sequence of pointer events in which presses and releases alternate (starting
with a press, moves anywhere), after every prefix of the sequence the flags
`m_bDragPending` and `m_bDraggingThis` are not both true. -/
theorem flags_exclusive_when_alternating (h : Host) (bar : CHyprBar) (es : List PointerEvent)
    (n : Nat) (hidle : Idle bar) (halt : Alternates true es) :
    ¬ ((run h bar (es.take n)).bar.m_bDragPending = true ∧
       (run h bar (es.take n)).bar.m_bDraggingThis = true) :=
  run_alternates_flags h (es.take n) true bar (Alternates.take es true n halt)
    (fun _ => hidle.1) (Or.inl hidle.2.1)

/-- Witness for C10 (amended): the drag gesture of the scenario followed by a
second press, looked at after four events (press, move, move, release). -/
theorem flags_exclusive_when_alternating_witness :
    Idle scenarioBar ∧
    Alternates true (dragGesture ⟨108, 78⟩ ⟨111, 78⟩ [⟨120, 90⟩] ⟨0, 0⟩ ++ [press ⟨108, 78⟩]) ∧
    ¬ ((run scenarioHost scenarioBar
          ((dragGesture ⟨108, 78⟩ ⟨111, 78⟩ [⟨120, 90⟩] ⟨0, 0⟩ ++ [press ⟨108, 78⟩]).take 4)).bar.m_bDragPending
          = true ∧
       (run scenarioHost scenarioBar
          ((dragGesture ⟨108, 78⟩ ⟨111, 78⟩ [⟨120, 90⟩] ⟨0, 0⟩ ++ [press ⟨108, 78⟩]).take 4)).bar.m_bDraggingThis
          = true) :=
  have h1 : Idle scenarioBar := by simp [Idle, scenarioBar]
  have h2 : Alternates true
      (dragGesture ⟨108, 78⟩ ⟨111, 78⟩ [⟨120, 90⟩] ⟨0, 0⟩ ++ [press ⟨108, 78⟩]) := by
    simp [dragGesture, press, release, Alternates]
  ⟨h1, h2, flags_exclusive_when_alternating scenarioHost scenarioBar _ 4 h1 h2⟩

/-! ## Auxiliary facts about the layout -/

theorem toInt_intCast (n : Int) : toInt (n : ℚ) = n := by
  unfold toInt
  split
  · exact Int.floor_intCast n
  · rw [← Int.cast_neg, Int.floor_intCast]
    omega

theorem renderBarButtonsLoop_cons_int (W : Int) (H : ℚ) (b : SHyprButton) (bs : List SHyprButton)
    (off : Int) (d : Nat) (hd : b.size = d) :
    renderBarButtonsLoop ⟨W, H⟩ 1 (b :: bs) off =
      ⟨W - off - d, toInt (⌊(H - d) / 2⌋ : Int), ⌈(d : ℚ) / 2⌉, d⟩ ::
        renderBarButtonsLoop ⟨W, H⟩ 1 bs (off + BUTTONS_PAD + d) := by
  have e1 : ((W : ℚ) - (off : ℚ) - (d : ℚ)) = ((W - off - (d : Int) : Int) : ℚ) := by
    push_cast; ring
  have e2 : ((off : ℚ) + ((BUTTONS_PAD : ℚ) + (d : ℚ))) = ((off + BUTTONS_PAD + (d : Int) : Int) : ℚ) := by
    push_cast; ring
  simp only [renderBarButtonsLoop, Vector2D.floor, hd, mul_one, e1, e2, Int.floor_intCast,
    toInt_intCast]

theorem renderBarButtonsLoop_layout (W : Int) (H : ℚ) :
    ∀ (bs : List SHyprButton) (off : Int),
      (∀ b ∈ bs, ∃ d : Nat, 0 < d ∧ b.size = d) →
      (renderBarButtonsLoop ⟨W, H⟩ 1 bs off).length = bs.length ∧
      (∀ s : ButtonSlot, (renderBarButtonsLoop ⟨W, H⟩ 1 bs off)[0]? = some s →
        s.rect.x2 = W - off) ∧
      (∀ (i : Nat) (s : ButtonSlot) (b : SHyprButton),
        (renderBarButtonsLoop ⟨W, H⟩ 1 bs off)[i]? = some s → bs[i]? = some b →
        s.rect.x2 - s.rect.x1 = b.size) ∧
      (∀ (i : Nat) (s s' : ButtonSlot),
        (renderBarButtonsLoop ⟨W, H⟩ 1 bs off)[i]? = some s →
        (renderBarButtonsLoop ⟨W, H⟩ 1 bs off)[i + 1]? = some s' →
        s'.rect.x2 = s.rect.x1 - BUTTONS_PAD) := by
  intro bs
  induction bs with
  | nil => intro off _; simp [renderBarButtonsLoop]
  | cons b bs ih =>
    intro off hint
    obtain ⟨d, _, hd⟩ := hint b (List.mem_cons_self b bs)
    have hint' : ∀ b' ∈ bs, ∃ d : Nat, 0 < d ∧ b'.size = d :=
      fun b' hb' => hint b' (List.mem_cons_of_mem b hb')
    obtain ⟨hlen, hfirst, hwidth, hadj⟩ := ih (off + BUTTONS_PAD + d) hint'
    rw [renderBarButtonsLoop_cons_int W H b bs off d hd]
    refine ⟨by simp [hlen], ?_, ?_, ?_⟩
    · intro s hs
      simp only [List.getElem?_cons_zero, Option.some.injEq] at hs
      subst hs
      simp only [ButtonSlot.rect]
      push_cast
      ring
    · intro i s b' hs hb'
      cases i with
      | zero =>
        simp only [List.getElem?_cons_zero, Option.some.injEq] at hs hb'
        subst hs
        subst hb'
        simp only [ButtonSlot.rect, hd]
        ring
      | succ i =>
        simp only [List.getElem?_cons_succ] at hs hb'
        exact hwidth i s b' hs hb'
    · intro i s s' hs hs'
      cases i with
      | zero =>
        simp only [List.getElem?_cons_zero, Option.some.injEq, Nat.zero_add,
          List.getElem?_cons_succ] at hs hs'
        subst hs
        rw [hfirst s' hs']
        simp only [ButtonSlot.rect]
        push_cast
        ring
      | succ i =>
        simp only [List.getElem?_cons_succ] at hs hs'
        exact hadj i s s' hs hs'

/-! ## C4: the button slots run right to left without overlap -/

/-- Claim C4. At scale 1, for every integer bar width `W`, every bar height and
every non-empty list of buttons with positive integer diameters, the slots that
`renderBarButtons` computes (slot `i` spans from `currentPos.x` over the button
diameter) satisfy: there is one slot per button, each as wide as its button; the
first slot's right edge is `W - BUTTONS_PAD`; and slot `i+1` ends exactly
`BUTTONS_PAD` left of where slot `i` begins, so it lies strictly to the left of
slot `i` with no overlap. -/
theorem button_slots_right_to_left (W : Int) (H : ℚ) (bs : List SHyprButton)
    (hint : ∀ b ∈ bs, ∃ d : Nat, 0 < d ∧ b.size = d) (hne : bs ≠ []) :
    (renderBarButtons ⟨W, H⟩ 1 bs).length = bs.length ∧
    (∀ (i : Nat) (s : ButtonSlot) (b : SHyprButton),
      (renderBarButtons ⟨W, H⟩ 1 bs)[i]? = some s → bs[i]? = some b →
      s.rect.x2 - s.rect.x1 = b.size) ∧
    (∃ s : ButtonSlot, (renderBarButtons ⟨W, H⟩ 1 bs)[0]? = some s ∧
      s.rect.x2 = W - BUTTONS_PAD) ∧
    (∀ (i : Nat) (s s' : ButtonSlot),
      (renderBarButtons ⟨W, H⟩ 1 bs)[i]? = some s →
      (renderBarButtons ⟨W, H⟩ 1 bs)[i + 1]? = some s' →
      s'.rect.x2 = s.rect.x1 - BUTTONS_PAD ∧ s'.rect.x2 ≤ s.rect.x1 ∧ s'.rect.x1 < s.rect.x1) := by
  have hpad : toInt ((BUTTONS_PAD : ℚ) * 1) = BUTTONS_PAD := by
    rw [mul_one, toInt_intCast]
  obtain ⟨hlen, hfirst, hwidth, hadj⟩ := renderBarButtonsLoop_layout W H bs BUTTONS_PAD hint
  simp only [renderBarButtons, hpad]
  refine ⟨hlen, hwidth, ?_, ?_⟩
  · have hpos : 0 < (renderBarButtonsLoop ⟨W, H⟩ 1 bs BUTTONS_PAD).length := by
      rw [hlen]
      exact List.length_pos.2 hne
    refine ⟨(renderBarButtonsLoop ⟨W, H⟩ 1 bs BUTTONS_PAD)[0], ?_, ?_⟩
    · exact List.getElem?_eq_getElem hpos
    · exact hfirst _ (List.getElem?_eq_getElem hpos)
  · intro i s s' hs hs'
    have hgap := hadj i s s' hs hs'
    have hi : i + 1 < bs.length := by
      rw [← hlen]
      exact (List.getElem?_eq_some.1 hs').1
    have hb' : bs[i + 1]? = some bs[i + 1] := List.getElem?_eq_getElem hi
    have hw := hwidth (i + 1) s' bs[i + 1] hs' hb'
    obtain ⟨d, hdpos, hd⟩ := hint bs[i + 1] (List.getElem_mem hi)
    have hdq : (0 : ℚ) < d := by exact_mod_cast hdpos
    have hP : ((BUTTONS_PAD : Int) : ℚ) = 5 := by norm_num [BUTTONS_PAD]
    rw [hd] at hw
    rw [hP] at hgap
    refine ⟨by rw [hP]; exact hgap, by linarith, by linarith⟩

/-- Witness for C4: the two buttons of diameter 12 of the scenario in a bar of
width 804; the first slot ends at 799. -/
theorem button_slots_right_to_left_witness :
    (∀ b ∈ scenarioHost.buttons, ∃ d : Nat, 0 < d ∧ b.size = d) ∧
    scenarioHost.buttons ≠ [] ∧
    (∃ s : ButtonSlot, (renderBarButtons ⟨(804 : Int), 30⟩ 1 scenarioHost.buttons)[0]? = some s ∧
      s.rect.x2 = (804 : Int) - BUTTONS_PAD) :=
  have h1 : ∀ b ∈ scenarioHost.buttons, ∃ d : Nat, 0 < d ∧ b.size = d := by
    intro b hb
    refine ⟨12, by decide, ?_⟩
    simp only [scenarioHost, List.mem_cons, List.mem_singleton, List.not_mem_nil, or_false] at hb
    rcases hb with rfl | rfl <;> simp [scenarioButton]
  have h2 : scenarioHost.buttons ≠ [] := by simp [scenarioHost]
  ⟨h1, h2, (button_slots_right_to_left 804 30 scenarioHost.buttons h1 h2).2.2.1⟩

/-! ## C9: hit-test rectangles against drawn slots -/

theorem hitRects_vs_slots (h : Host) (bar : CHyprBar) :
    ∀ (bs : List SHyprButton) (o : Int),
      (∀ b ∈ bs, ∃ d : Nat, b.size = d) →
      ∀ (i : Nat) (s : ButtonSlot) (r : Rect) (b : SHyprButton),
        (renderBarButtonsLoop
          ⟨((toInt bar.m_vLastWindowSize.x + 2 * h.BORDERSIZE : Int) : ℚ), (h.PHEIGHT : ℚ)⟩ 1 bs
          (o + BUTTONS_PAD))[i]? = some s →
        (hitRects h bar bs (o : ℚ))[i]? = some r →
        bs[i]? = some b →
        r.x1 = s.rect.x1 - BUTTONS_PAD ∧ r.x2 = s.rect.x2 ∧ s.rect.x2 = s.rect.x1 + b.size ∧
        r.y1 = (⌊(((h.PHEIGHT + h.BORDERSIZE : Int) : ℚ) - b.size) / 2⌋ : Int) ∧
        r.y2 = r.y1 + b.size ∧
        s.rect.y1 = (⌊((h.PHEIGHT : ℚ) - b.size) / 2⌋ : Int) ∧
        s.rect.y2 = s.rect.y1 + b.size := by
  intro bs
  induction bs with
  | nil => intro o _ i s r b hs; simp [renderBarButtonsLoop] at hs
  | cons b0 bs ih =>
    intro o hint i s r b hs hr hb
    obtain ⟨d, hd⟩ := hint b0 (List.mem_cons_self b0 bs)
    have hint' : ∀ b' ∈ bs, ∃ d : Nat, b'.size = d :=
      fun b' hb' => hint b' (List.mem_cons_of_mem b0 hb')
    rw [renderBarButtonsLoop_cons_int _ _ b0 bs _ d hd] at hs
    cases i with
    | zero =>
      simp only [List.getElem?_cons_zero, Option.some.injEq, hitRects] at hs hr hb
      subst hs
      subst hr
      subst hb
      have e1 : (((toInt bar.m_vLastWindowSize.x + 2 * h.BORDERSIZE : Int) : ℚ)
          - 2 * (BUTTONS_PAD : ℚ) - (d : ℚ) - (o : ℚ))
          = ((toInt bar.m_vLastWindowSize.x + 2 * h.BORDERSIZE - 2 * BUTTONS_PAD - d - o : Int) : ℚ) := by
        push_cast; ring
      simp only [hitRect, ButtonSlot.rect, Vector2D.floor, hd, e1, Int.floor_intCast, toInt_intCast]
      push_cast
      refine ⟨by ring, by ring, trivial, trivial, trivial, trivial, trivial⟩
    | succ i =>
      simp only [List.getElem?_cons_succ, hitRects] at hs hr hb
      have e2 : ((o : ℚ) + ((BUTTONS_PAD : ℚ) + b0.size)) = ((o + BUTTONS_PAD + (d : Int) : Int) : ℚ) := by
        rw [hd]; push_cast; ring
      have e3 : o + BUTTONS_PAD + BUTTONS_PAD + (d : Int) = (o + BUTTONS_PAD + (d : Int)) + BUTTONS_PAD := by
        ring
      rw [e2] at hr
      rw [e3] at hs
      exact ih (o + BUTTONS_PAD + d) hint' i s r b hs hr hb

/-- Claim C9 as stated fails in the scenario of §8 (border 2, bar height 30, first
button of diameter 12): the rectangle hit-tested for the first button is
(782,10)-(799,22) while its slot is (787,9)-(799,21); a press at bar coordinates
(784,15) is outside the slot and still runs the first button's command. -/
theorem hit_rect_differs_from_slot :
    (hitRects scenarioHost scenarioBar scenarioHost.buttons 0)[0]? = some ⟨782, 10, 799, 22⟩ ∧
    ((renderBarButtons (drawBARBUF scenarioHost scenarioBar scenarioMonitor) scenarioMonitor.scale
        scenarioHost.buttons).map ButtonSlot.rect)[0]? = some ⟨787, 9, 799, 21⟩ ∧
    cursorRelativeToBar scenarioHost ⟨882, 83⟩ = ⟨784, 15⟩ ∧
    ¬ (⟨787, 9, 799, 21⟩ : Rect).contains (cursorRelativeToBar scenarioHost ⟨882, 83⟩) ∧
    (run scenarioHost scenarioBar [press ⟨882, 83⟩]).actions = [Action.exec "close"] := by
  refine ⟨?_, ?_, ?_, ?_, ?_⟩
  · norm_num [hitRects, hitRect, scenarioHost, scenarioBar, scenarioButton, toInt, Vector2D.floor,
      BUTTONS_PAD]
  · norm_num [renderBarButtons, renderBarButtonsLoop, drawBARBUF, ButtonSlot.rect, scenarioHost,
      scenarioBar, scenarioMonitor, scenarioButton, toInt, Vector2D.floor, BUTTONS_PAD]
  · norm_num [cursorRelativeToBar, scenarioHost]
  · norm_num [Rect.contains, VECINRECT, cursorRelativeToBar, scenarioHost]
  · norm_num [run, step, press, onMouseDown, inBarBox, VECINRECT, cursorRelativeToBar,
      scenarioHost, scenarioBar, buttonLoop, hitRect, Rect.contains, scenarioButton, toInt,
      Vector2D.floor, BUTTONS_PAD]

/-- Claim C9, amended. At scale 1 and for buttons with integer diameters, the
rectangle that `onMouseDown` hit-tests for button `i` is related to the slot of
button `i` computed by `renderBarButtons` as follows: both have the same right
edge; the hit-test rectangle begins `BUTTONS_PAD` further left (its width is
the diameter plus the padding); both have the diameter as height; the slot is
vertically centered in the bar height, the hit-test rectangle in the bar height
plus the border size. With border size 0 the hit-test rectangle is the slot
widened by `BUTTONS_PAD` to the left, so it contains the slot. -/
theorem hit_rect_is_slot_widened_left (h : Host) (bar : CHyprBar) (pMonitor : CMonitor)
    (i : Nat) (s : ButtonSlot) (r : Rect) (b : SHyprButton)
    (hscale : pMonitor.scale = 1)
    (hint : ∀ b ∈ h.buttons, ∃ d : Nat, b.size = d)
    (hs : (renderBarButtons (drawBARBUF h bar pMonitor) pMonitor.scale h.buttons)[i]? = some s)
    (hr : (hitRects h bar h.buttons 0)[i]? = some r)
    (hb : h.buttons[i]? = some b) :
    r.x2 = s.rect.x2 ∧ r.x1 = s.rect.x1 - BUTTONS_PAD ∧
    s.rect.x2 - s.rect.x1 = b.size ∧ r.x2 - r.x1 = b.size + BUTTONS_PAD ∧
    s.rect.y2 - s.rect.y1 = b.size ∧ r.y2 - r.y1 = b.size ∧
    s.rect.y1 = (⌊((h.PHEIGHT : ℚ) - b.size) / 2⌋ : Int) ∧
    r.y1 = (⌊(((h.PHEIGHT + h.BORDERSIZE : Int) : ℚ) - b.size) / 2⌋ : Int) ∧
    (h.BORDERSIZE = 0 →
      r = ⟨s.rect.x1 - BUTTONS_PAD, s.rect.y1, s.rect.x2, s.rect.y2⟩ ∧
      ∀ p : Vector2D, s.rect.contains p → r.contains p) := by
  have hpad : toInt ((BUTTONS_PAD : ℚ) * 1) = 0 + BUTTONS_PAD := by
    rw [mul_one, toInt_intCast, zero_add]
  simp only [renderBarButtons, drawBARBUF, hscale, mul_one, hpad] at hs
  have hr' : (hitRects h bar h.buttons ((0 : Int) : ℚ))[i]? = some r := by
    simpa using hr
  obtain ⟨hx1, hx2, hsx, hy1, hy2, hsy1, hsy2⟩ :=
    hitRects_vs_slots h bar h.buttons 0 hint i s r b hs hr' hb
  refine ⟨hx2, hx1, by rw [hsx]; ring, by rw [hx1, hx2, hsx]; ring, by rw [hsy2]; ring,
    by rw [hy2]; ring, hsy1, hy1, ?_⟩
  intro hB
  have hy : r.y1 = s.rect.y1 := by
    rw [hy1, hsy1, hB, Int.add_zero]
  have hP : (0 : ℚ) ≤ ((BUTTONS_PAD : Int) : ℚ) := by norm_num [BUTTONS_PAD]
  refine ⟨?_, ?_⟩
  · cases r with
    | mk x1 y1 x2 y2 =>
      simp only [Rect.mk.injEq]
      simp only at hx1 hx2 hy hy2
      refine ⟨hx1, hy, hx2, ?_⟩
      rw [hy2, hsy2, hy]
  · intro p hp
    simp only [Rect.contains, VECINRECT] at hp ⊢
    obtain ⟨h1, h2, h3, h4⟩ := hp
    refine ⟨by rw [hx1]; linarith, by rw [hx2]; exact h2, by rw [hy]; exact h3, ?_⟩
    rw [hy2, hy, ← hsy2]
    exact h4

/-- Witness for C9 (amended) in the scenario of §8, first button. -/
theorem hit_rect_is_slot_widened_left_witness :
    scenarioMonitor.scale = 1 ∧
    (∀ b ∈ scenarioHost.buttons, ∃ d : Nat, b.size = d) ∧
    (renderBarButtons (drawBARBUF scenarioHost scenarioBar scenarioMonitor) scenarioMonitor.scale
      scenarioHost.buttons)[0]? = some ⟨787, 9, 6, 12⟩ ∧
    (hitRects scenarioHost scenarioBar scenarioHost.buttons 0)[0]? = some ⟨782, 10, 799, 22⟩ ∧
    scenarioHost.buttons[0]? = some (scenarioButton "close") ∧
    (⟨782, 10, 799, 22⟩ : Rect).x2 = (⟨787, 9, 6, 12⟩ : ButtonSlot).rect.x2 ∧
    (⟨782, 10, 799, 22⟩ : Rect).x1 = (⟨787, 9, 6, 12⟩ : ButtonSlot).rect.x1 - BUTTONS_PAD :=
  have h1 : ∀ b ∈ scenarioHost.buttons, ∃ d : Nat, b.size = d := by
    intro b hb
    refine ⟨12, ?_⟩
    simp only [scenarioHost, List.mem_cons, List.mem_singleton, List.not_mem_nil, or_false] at hb
    rcases hb with rfl | rfl <;> simp [scenarioButton]
  have h2 : (renderBarButtons (drawBARBUF scenarioHost scenarioBar scenarioMonitor)
      scenarioMonitor.scale scenarioHost.buttons)[0]? = some ⟨787, 9, 6, 12⟩ := by
    have hc : (⌈(6 : ℚ)⌉ : Int) = 6 := by exact_mod_cast (Int.ceil_intCast 6 : ⌈((6 : Int) : ℚ)⌉ = 6)
    norm_num [renderBarButtons, renderBarButtonsLoop, drawBARBUF, scenarioHost,
      scenarioBar, scenarioMonitor, scenarioButton, toInt, Vector2D.floor, BUTTONS_PAD, hc]
  have h3 : (hitRects scenarioHost scenarioBar scenarioHost.buttons 0)[0]?
      = some ⟨782, 10, 799, 22⟩ := by
    norm_num [hitRects, hitRect, scenarioHost, scenarioBar, scenarioButton, toInt, Vector2D.floor,
      BUTTONS_PAD]
  have h4 : scenarioHost.buttons[0]? = some (scenarioButton "close") := rfl
  have key := hit_rect_is_slot_widened_left scenarioHost scenarioBar scenarioMonitor 0
    ⟨787, 9, 6, 12⟩ ⟨782, 10, 799, 22⟩ (scenarioButton "close") rfl h1 h2 h3 h4
  ⟨rfl, h1, h2, h3, h4, key.1, key.2.1⟩

/-! ## Auxiliary facts about `draw` -/

theorem allocate_ne_zero (t : CTexture) : t.allocate.m_iTexID ≠ 0 := by
  unfold CTexture.allocate
  split
  · simp
  · assumption

theorem iconLoop_cons_render (barBox : wlr_box) (scale : ℚ) (b : SHyprButton)
    (bs : List SHyprButton) (off : Int) (hz : b.iconTex.m_iTexID = 0) (he : b.icon.isEmpty = false) :
    renderBarButtonsTextLoop barBox scale (b :: bs) off =
      ({ b with iconTex := b.iconTex.allocate } ::
          (renderBarButtonsTextLoop barBox scale bs
            (toInt (off + ((BUTTONS_PAD : ℚ) * scale + b.size * scale)))).1,
        RenderOp.renderText b.icon ⟨b.size * scale, b.size * scale⟩ ::
          RenderOp.renderTexture b.iconTex.allocate
            ⟨toInt (barBox.x + barBox.width - off - b.size * scale * (3 / 2)),
             toInt (barBox.y + (barBox.height - b.size * scale) / 2),
             toInt (b.size * scale), toInt (b.size * scale)⟩ ::
          (renderBarButtonsTextLoop barBox scale bs
            (toInt (off + ((BUTTONS_PAD : ℚ) * scale + b.size * scale)))).2) := by
  have hne : b.iconTex.allocate.m_iTexID ≠ 0 := allocate_ne_zero b.iconTex
  simp [renderBarButtonsTextLoop, hz, he, hne]

theorem iconLoop_cons_skip (barBox : wlr_box) (scale : ℚ) (b : SHyprButton)
    (bs : List SHyprButton) (off : Int) (hz : b.iconTex.m_iTexID = 0) (he : b.icon.isEmpty = true) :
    renderBarButtonsTextLoop barBox scale (b :: bs) off =
      (b :: (renderBarButtonsTextLoop barBox scale bs off).1,
        (renderBarButtonsTextLoop barBox scale bs off).2) := by
  simp [renderBarButtonsTextLoop, hz, he]

theorem iconLoop_cons_blit (barBox : wlr_box) (scale : ℚ) (b : SHyprButton)
    (bs : List SHyprButton) (off : Int) (hnz : b.iconTex.m_iTexID ≠ 0) :
    renderBarButtonsTextLoop barBox scale (b :: bs) off =
      (b :: (renderBarButtonsTextLoop barBox scale bs
            (toInt (off + ((BUTTONS_PAD : ℚ) * scale + b.size * scale)))).1,
        RenderOp.renderTexture b.iconTex
            ⟨toInt (barBox.x + barBox.width - off - b.size * scale * (3 / 2)),
             toInt (barBox.y + (barBox.height - b.size * scale) / 2),
             toInt (b.size * scale), toInt (b.size * scale)⟩ ::
          (renderBarButtonsTextLoop barBox scale bs
            (toInt (off + ((BUTTONS_PAD : ℚ) * scale + b.size * scale)))).2) := by
  simp [renderBarButtonsTextLoop, hnz]

theorem iconLoop_no_title_or_buttons_raster (barBox : wlr_box) (scale : ℚ) :
    ∀ (bs : List SHyprButton) (off : Int),
      (renderBarButtonsTextLoop barBox scale bs off).2.filter RenderOp.isTitleRaster = [] ∧
      (renderBarButtonsTextLoop barBox scale bs off).2.filter RenderOp.isButtonsRaster = [] := by
  intro bs
  induction bs with
  | nil => intro off; simp [renderBarButtonsTextLoop]
  | cons b bs ih =>
    intro off
    by_cases hz : b.iconTex.m_iTexID = 0
    · cases he : b.icon.isEmpty
      · rw [iconLoop_cons_render barBox scale b bs off hz he]
        simp [List.filter_cons, RenderOp.isTitleRaster, RenderOp.isButtonsRaster, ih]
      · rw [iconLoop_cons_skip barBox scale b bs off hz he]
        exact ih off
    · rw [iconLoop_cons_blit barBox scale b bs off hz]
      simp [List.filter_cons, RenderOp.isTitleRaster, RenderOp.isButtonsRaster, ih]

theorem iconLoop_second_pass (barBox barBox' : wlr_box) (scale scale' : ℚ) :
    ∀ (bs : List SHyprButton) (off off' : Int),
      (renderBarButtonsTextLoop barBox' scale'
        (renderBarButtonsTextLoop barBox scale bs off).1 off').2.filter RenderOp.isIconRaster = [] := by
  intro bs
  induction bs with
  | nil => intro off off'; simp [renderBarButtonsTextLoop]
  | cons b bs ih =>
    intro off off'
    by_cases hz : b.iconTex.m_iTexID = 0
    · cases he : b.icon.isEmpty
      · rw [iconLoop_cons_render barBox scale b bs off hz he]
        rw [iconLoop_cons_blit barBox' scale' _ _ off' (allocate_ne_zero b.iconTex)]
        simp [List.filter_cons, RenderOp.isIconRaster, ih]
      · rw [iconLoop_cons_skip barBox scale b bs off hz he]
        rw [iconLoop_cons_skip barBox' scale' b _ off' hz he]
        exact ih off off'
    · rw [iconLoop_cons_blit barBox scale b bs off hz]
      rw [iconLoop_cons_blit barBox' scale' b _ off' hz]
      simp [List.filter_cons, RenderOp.isIconRaster, ih]

theorem draw_state (h : Host) (bar : CHyprBar) (pMonitor : CMonitor) (a : ℚ) (offset : Vector2D)
    (hm : h.windowValidMapped = true) (hdec : h.decorate = true) (hH : 1 ≤ h.PHEIGHT) :
    (draw h bar pMonitor a offset).bar.m_szLastTitle = h.m_szTitle ∧
    (draw h bar pMonitor a offset).bar.m_tTextTex.m_iTexID ≠ 0 ∧
    (draw h bar pMonitor a offset).bar.m_bWindowSizeChanged = false ∧
    (draw h bar pMonitor a offset).bar.m_bButtonsDirty = false ∧
    (draw h bar pMonitor a offset).bar.m_vLastWindowSize = bar.m_vLastWindowSize ∧
    (draw h bar pMonitor a offset).bar.m_vLastWindowPos = bar.m_vLastWindowPos ∧
    (draw h bar pMonitor a offset).bar.m_seExtents = ⟨⟨0, ((h.PHEIGHT + 1 : Int) : ℚ)⟩, ⟨0, 0⟩⟩ := by
  have hH' : ¬ h.PHEIGHT < 1 := not_lt.2 hH
  have hne := allocate_ne_zero bar.m_tTextTex
  refine ⟨?_, ?_, ?_, ?_, ?_, ?_, ?_⟩
  · by_cases ht : bar.m_szLastTitle = h.m_szTitle <;>
      cases hs : bar.m_bWindowSizeChanged <;>
      by_cases hz : bar.m_tTextTex.m_iTexID = 0 <;>
      cases hb : bar.m_bButtonsDirty <;>
      simp [draw, hm, hdec, hH', ht, hs, hz, hb]
  · by_cases ht : bar.m_szLastTitle = h.m_szTitle <;>
      cases hs : bar.m_bWindowSizeChanged <;>
      by_cases hz : bar.m_tTextTex.m_iTexID = 0 <;>
      cases hb : bar.m_bButtonsDirty <;>
      simp [draw, hm, hdec, hH', ht, hs, hz, hb, hne]
  · simp [draw, hm, hdec, hH']
  · by_cases ht : bar.m_szLastTitle = h.m_szTitle <;>
      cases hs : bar.m_bWindowSizeChanged <;>
      by_cases hz : bar.m_tTextTex.m_iTexID = 0 <;>
      cases hb : bar.m_bButtonsDirty <;>
      simp [draw, hm, hdec, hH', ht, hs, hz, hb]
  · by_cases ht : bar.m_szLastTitle = h.m_szTitle <;>
      cases hs : bar.m_bWindowSizeChanged <;>
      by_cases hz : bar.m_tTextTex.m_iTexID = 0 <;>
      cases hb : bar.m_bButtonsDirty <;>
      simp [draw, hm, hdec, hH', ht, hs, hz, hb]
  · by_cases ht : bar.m_szLastTitle = h.m_szTitle <;>
      cases hs : bar.m_bWindowSizeChanged <;>
      by_cases hz : bar.m_tTextTex.m_iTexID = 0 <;>
      cases hb : bar.m_bButtonsDirty <;>
      simp [draw, hm, hdec, hH', ht, hs, hz, hb]
  · by_cases ht : bar.m_szLastTitle = h.m_szTitle <;>
      cases hs : bar.m_bWindowSizeChanged <;>
      by_cases hz : bar.m_tTextTex.m_iTexID = 0 <;>
      cases hb : bar.m_bButtonsDirty <;>
      simp [draw, hm, hdec, hH', ht, hs, hz, hb]

theorem draw_rasters (h : Host) (bar : CHyprBar) (pMonitor : CMonitor) (a : ℚ) (offset : Vector2D)
    (hm : h.windowValidMapped = true) (hdec : h.decorate = true) (hH : 1 ≤ h.PHEIGHT) :
    (draw h bar pMonitor a offset).ops.filter RenderOp.isTitleRaster
      = (if bar.m_szLastTitle ≠ h.m_szTitle ∨ bar.m_bWindowSizeChanged = true ∨
            bar.m_tTextTex.m_iTexID = 0
          then [RenderOp.renderBarTitle (drawBARBUF h bar pMonitor) pMonitor.scale h.m_szTitle]
          else []) ∧
    (draw h bar pMonitor a offset).ops.filter RenderOp.isButtonsRaster
      = (if bar.m_bButtonsDirty = true ∨ bar.m_bWindowSizeChanged = true
          then [RenderOp.renderBarButtons (drawBARBUF h bar pMonitor) pMonitor.scale
                  (renderBarButtons (drawBARBUF h bar pMonitor) pMonitor.scale h.buttons)]
          else []) ∧
    (draw h bar pMonitor a offset).ops.filter RenderOp.isIconRaster
      = (renderBarButtonsText
          ⟨(drawTitleBarBox h bar pMonitor offset).x, (drawTitleBarBox h bar pMonitor offset).y,
           toInt (drawBARBUF h bar pMonitor).x, toInt (drawBARBUF h bar pMonitor).y⟩
          pMonitor.scale h.buttons).2.filter RenderOp.isIconRaster ∧
    (draw h bar pMonitor a offset).buttons
      = (renderBarButtonsText
          ⟨(drawTitleBarBox h bar pMonitor offset).x, (drawTitleBarBox h bar pMonitor offset).y,
           toInt (drawBARBUF h bar pMonitor).x, toInt (drawBARBUF h bar pMonitor).y⟩
          pMonitor.scale h.buttons).1 := by
  have hH' : ¬ h.PHEIGHT < 1 := not_lt.2 hH
  have hicons := iconLoop_no_title_or_buttons_raster
    ⟨(drawTitleBarBox h bar pMonitor offset).x, (drawTitleBarBox h bar pMonitor offset).y,
      toInt (drawBARBUF h bar pMonitor).x, toInt (drawBARBUF h bar pMonitor).y⟩
    pMonitor.scale h.buttons (toInt ((BUTTONS_PAD : ℚ) * pMonitor.scale))
  refine ⟨?_, ?_, ?_, ?_⟩
  · by_cases ht : bar.m_szLastTitle = h.m_szTitle <;>
      cases hs : bar.m_bWindowSizeChanged <;>
      by_cases hz : bar.m_tTextTex.m_iTexID = 0 <;>
      cases hb : bar.m_bButtonsDirty <;>
      by_cases hr : h.PROUNDING = 0 <;>
      by_cases hl : bar.m_iLastHeight = h.PHEIGHT <;>
      simp [draw, hm, hdec, hH', ht, hs, hz, hb, hr, hl, List.filter_cons, List.filter_append,
        RenderOp.isTitleRaster, renderBarButtonsText, hicons.1]
  · by_cases ht : bar.m_szLastTitle = h.m_szTitle <;>
      cases hs : bar.m_bWindowSizeChanged <;>
      by_cases hz : bar.m_tTextTex.m_iTexID = 0 <;>
      cases hb : bar.m_bButtonsDirty <;>
      by_cases hr : h.PROUNDING = 0 <;>
      by_cases hl : bar.m_iLastHeight = h.PHEIGHT <;>
      simp [draw, hm, hdec, hH', ht, hs, hz, hb, hr, hl, List.filter_cons, List.filter_append,
        RenderOp.isButtonsRaster, renderBarButtonsText, hicons.2]
  · by_cases ht : bar.m_szLastTitle = h.m_szTitle <;>
      cases hs : bar.m_bWindowSizeChanged <;>
      by_cases hz : bar.m_tTextTex.m_iTexID = 0 <;>
      cases hb : bar.m_bButtonsDirty <;>
      by_cases hr : h.PROUNDING = 0 <;>
      by_cases hl : bar.m_iLastHeight = h.PHEIGHT <;>
      simp [draw, hm, hdec, hH', ht, hs, hz, hb, hr, hl, List.filter_cons, List.filter_append,
        RenderOp.isIconRaster, renderBarButtonsText]
  · simp [draw, hm, hdec, hH']

theorem filter_isRaster_eq_nil (ops : List RenderOp)
    (h1 : ops.filter RenderOp.isTitleRaster = [])
    (h2 : ops.filter RenderOp.isButtonsRaster = [])
    (h3 : ops.filter RenderOp.isIconRaster = []) :
    ops.filter RenderOp.isRaster = [] := by
  rw [List.filter_eq_nil_iff] at h1 h2 h3 ⊢
  intro op hop
  have a1 := h1 op hop
  have a2 := h2 op hop
  have a3 := h3 op hop
  simp only [RenderOp.isRaster, Bool.or_eq_true, not_or]
  exact ⟨⟨a1, a2⟩, a3⟩

/-! ## C6: what a title change and a size change re-rasterize -/

/-- Claim C6. For a mapped, decorated window with bar height at least 1 and a bar
in the state a completed draw leaves (`m_bWindowSizeChanged` and
`m_bButtonsDirty` false; whether the title texture exists does not matter here):
if the window title differs from the cached title, the next `draw` performs
exactly one `renderBarTitle` and no `renderBarButtons`; if `updateWindow`
observes a window size different from the cached one, the `draw` after it
performs one `renderBarTitle` and one `renderBarButtons`. -/
theorem title_change_rasterizes_title_size_change_both (h : Host) (bar : CHyprBar)
    (pMonitor : CMonitor) (a : ℚ) (offset : Vector2D)
    (hm : h.windowValidMapped = true) (hdec : h.decorate = true) (hH : 1 ≤ h.PHEIGHT)
    (hsc : bar.m_bWindowSizeChanged = false) (hbd : bar.m_bButtonsDirty = false) :
    (h.m_szTitle ≠ bar.m_szLastTitle →
      ((draw h bar pMonitor a offset).ops.filter RenderOp.isTitleRaster).length = 1 ∧
      ((draw h bar pMonitor a offset).ops.filter RenderOp.isButtonsRaster).length = 0) ∧
    (h.m_vRealSize ≠ bar.m_vLastWindowSize →
      ((draw h (updateWindow h bar).1 pMonitor a offset).ops.filter RenderOp.isTitleRaster).length = 1 ∧
      ((draw h (updateWindow h bar).1 pMonitor a offset).ops.filter RenderOp.isButtonsRaster).length
        = 1) := by
  constructor
  · intro ht
    obtain ⟨h1, h2, _, _⟩ := draw_rasters h bar pMonitor a offset hm hdec hH
    rw [h1, h2]
    have ht' : bar.m_szLastTitle ≠ h.m_szTitle := fun e => ht e.symm
    simp [ht', hsc, hbd]
  · intro hsize
    have hsize' : bar.m_vLastWindowSize ≠ h.m_vRealSize := fun e => hsize e.symm
    have hflag : (updateWindow h bar).1.m_bWindowSizeChanged = true := by
      simp [updateWindow, hsize']
    obtain ⟨h1, h2, _, _⟩ := draw_rasters h (updateWindow h bar).1 pMonitor a offset hm hdec hH
    rw [h1, h2]
    simp [hflag]

/-- Witness for C6: the scenario bar after its first draw, then the window gets
the title "editor" and the size 640×480. -/
theorem title_change_rasterizes_title_size_change_both_witness :
    changedHost.windowValidMapped = true ∧ changedHost.decorate = true ∧ 1 ≤ changedHost.PHEIGHT ∧
    drawnBar.m_tTextTex.m_iTexID ≠ 0 ∧ drawnBar.m_bWindowSizeChanged = false ∧
    drawnBar.m_bButtonsDirty = false ∧
    changedHost.m_szTitle ≠ drawnBar.m_szLastTitle ∧
    changedHost.m_vRealSize ≠ drawnBar.m_vLastWindowSize ∧
    ((draw changedHost drawnBar scenarioMonitor 1 ⟨0, 0⟩).ops.filter RenderOp.isTitleRaster).length = 1 ∧
    ((draw changedHost drawnBar scenarioMonitor 1 ⟨0, 0⟩).ops.filter RenderOp.isButtonsRaster).length = 0 ∧
    ((draw changedHost (updateWindow changedHost drawnBar).1 scenarioMonitor 1 ⟨0, 0⟩).ops.filter
      RenderOp.isButtonsRaster).length = 1 :=
  have hs := draw_state scenarioHost scenarioBar scenarioMonitor 1 ⟨0, 0⟩ rfl rfl (by decide)
  have h1 : changedHost.windowValidMapped = true := rfl
  have h2 : changedHost.decorate = true := rfl
  have h3 : 1 ≤ changedHost.PHEIGHT := by decide
  have h4 : changedHost.m_szTitle ≠ drawnBar.m_szLastTitle := by
    have e : drawnBar.m_szLastTitle = "term" := hs.1
    rw [e]
    decide
  have h5 : changedHost.m_vRealSize ≠ drawnBar.m_vLastWindowSize := by
    have e : drawnBar.m_vLastWindowSize = ⟨800, 600⟩ := hs.2.2.2.2.1
    rw [e]
    simp [changedHost]
  have key := title_change_rasterizes_title_size_change_both changedHost drawnBar scenarioMonitor 1
    ⟨0, 0⟩ h1 h2 h3 hs.2.2.1 hs.2.2.2.1
  ⟨h1, h2, h3, hs.2.1, hs.2.2.1, hs.2.2.2.1, h4, h5, (key.1 h4).1, (key.1 h4).2, (key.2 h5).2⟩

/-! ## C7: a second draw without input change rasterizes nothing -/

/-- Claim C7. For every bar state and all inputs (window, configuration, button
registry, monitor, opacity, offset): when `draw` is called twice in a row with
the same inputs, the registry being the one the first call left, the second
call performs no rasterization: no `renderBarTitle`, no `renderBarButtons` and
no icon `renderText`. -/
theorem second_draw_rasterizes_nothing (h : Host) (bar : CHyprBar) (pMonitor : CMonitor) (a : ℚ)
    (offset : Vector2D) :
    (draw { h with buttons := (draw h bar pMonitor a offset).buttons }
        (draw h bar pMonitor a offset).bar pMonitor a offset).ops.filter RenderOp.isRaster = [] := by
  by_cases hm : h.windowValidMapped = true
  · by_cases hdec : h.decorate = true
    · by_cases hH : 1 ≤ h.PHEIGHT
      · obtain ⟨s1, s2, s3, s4, _, _, _⟩ := draw_state h bar pMonitor a offset hm hdec hH
        obtain ⟨_, _, _, hbtn⟩ := draw_rasters h bar pMonitor a offset hm hdec hH
        obtain ⟨r1, r2, r3, _⟩ := draw_rasters { h with buttons := (draw h bar pMonitor a offset).buttons }
          (draw h bar pMonitor a offset).bar pMonitor a offset hm hdec hH
        apply filter_isRaster_eq_nil
        · rw [r1]
          simp [s1, s2, s3]
        · rw [r2]
          simp [s3, s4]
        · rw [r3]
          simp only [hbtn, renderBarButtonsText]
          exact iconLoop_second_pass _ _ _ _ _ _ _
      · have hH' : h.PHEIGHT < 1 := not_le.1 hH
        simp [draw, hm, hdec, hH']
    · simp [draw, hm, hdec]
  · simp [draw, hm]

/-! ## C5: the layout scenario -/

/-- Claim C5 as stated fails: in the scenario the bar box computed by `draw` has
left edge 98 and width 804, so its right edge is 902, not 904; accordingly the
first button's slot ends at 897 (not 899) and begins at 885 (not 887), and the
second button's slot ends at 880 (not 882). -/
theorem scenario_bar_box_ends_at_902 :
    (drawTitleBarBox scenarioHost scenarioBar scenarioMonitor ⟨0, 0⟩).x
      + (drawTitleBarBox scenarioHost scenarioBar scenarioMonitor ⟨0, 0⟩).width = 902 ∧
    (drawTitleBarBox scenarioHost scenarioBar scenarioMonitor ⟨0, 0⟩).x
      + (drawTitleBarBox scenarioHost scenarioBar scenarioMonitor ⟨0, 0⟩).width ≠ 904 ∧
    (renderBarButtons (drawBARBUF scenarioHost scenarioBar scenarioMonitor) scenarioMonitor.scale
        scenarioHost.buttons).map
      (fun s => (((drawTitleBarBox scenarioHost scenarioBar scenarioMonitor ⟨0, 0⟩).x : ℚ) + s.rect.x2))
      ≠ [899, 882] := by
  have hbox : drawTitleBarBox scenarioHost scenarioBar scenarioMonitor ⟨0, 0⟩ = ⟨98, 68, 804, 30⟩ := by
    norm_num [drawTitleBarBox, scaleBox, cround, toInt, scenarioHost, scenarioBar, scenarioMonitor]
  rw [hbox]
  refine ⟨by decide, by decide, ?_⟩
  norm_num [renderBarButtons, renderBarButtonsLoop, drawBARBUF, ButtonSlot.rect, scenarioHost,
    scenarioBar, scenarioMonitor, scenarioButton, toInt, Vector2D.floor, BUTTONS_PAD]

/-- Claim C5, amended. In the scenario (window at (100,100) of size 800×600,
border 2, bar height 30, no rounding, monitor at the origin with scale 1, zero
frame offset, two buttons of diameter 12, padding 5) the bar box computed by
`draw` is x = 98, y = 68, width 804, height 30, so it spans (98,68) to
(902,98); in absolute x coordinates the first button's slot runs from 885 to
897 and the second button's slot from 868 to 880. The first `draw` of a fresh
bar issues exactly these operations. -/
theorem scenario_layout :
    drawTitleBarBox scenarioHost scenarioBar scenarioMonitor ⟨0, 0⟩ = ⟨98, 68, 804, 30⟩ ∧
    (98 : Int) + 804 = 902 ∧ (68 : Int) + 30 = 98 ∧
    (renderBarButtons (drawBARBUF scenarioHost scenarioBar scenarioMonitor) scenarioMonitor.scale
        scenarioHost.buttons).map
      (fun s => (((drawTitleBarBox scenarioHost scenarioBar scenarioMonitor ⟨0, 0⟩).x : ℚ) + s.rect.x1,
                 ((drawTitleBarBox scenarioHost scenarioBar scenarioMonitor ⟨0, 0⟩).x : ℚ) + s.rect.x2))
      = [(885, 897), (868, 880)] ∧
    (draw scenarioHost scenarioBar scenarioMonitor 1 ⟨0, 0⟩).ops =
      [RenderOp.scissor (some ⟨98, 68, 804, 30⟩),
       RenderOp.renderRect ⟨98, 68, 804, 30⟩,
       RenderOp.renderBarTitle ⟨804, 30⟩ 1 "term",
       RenderOp.renderTexture ⟨1⟩ ⟨98, 68, 804, 30⟩,
       RenderOp.renderBarButtons ⟨804, 30⟩ 1 [⟨787, 9, 6, 12⟩, ⟨770, 9, 6, 12⟩],
       RenderOp.renderTexture ⟨1⟩ ⟨98, 68, 804, 30⟩,
       RenderOp.scissor none,
       RenderOp.recalculateWindow] := by
  have hbox : drawTitleBarBox scenarioHost scenarioBar scenarioMonitor ⟨0, 0⟩ = ⟨98, 68, 804, 30⟩ := by
    norm_num [drawTitleBarBox, scaleBox, cround, toInt, scenarioHost, scenarioBar, scenarioMonitor]
  have hbuf : drawBARBUF scenarioHost scenarioBar scenarioMonitor = ⟨804, 30⟩ := by
    norm_num [drawBARBUF, toInt, scenarioHost, scenarioBar, scenarioMonitor]
  have hc : (⌈(6 : ℚ)⌉ : Int) = 6 := by exact_mod_cast (Int.ceil_intCast 6 : ⌈((6 : Int) : ℚ)⌉ = 6)
  have hslots : renderBarButtons ⟨804, 30⟩ 1 scenarioHost.buttons
      = [⟨787, 9, 6, 12⟩, ⟨770, 9, 6, 12⟩] := by
    norm_num [renderBarButtons, renderBarButtonsLoop, scenarioHost, scenarioButton, toInt,
      Vector2D.floor, BUTTONS_PAD, hc]
  refine ⟨hbox, by decide, by decide, ?_, ?_⟩
  · rw [hbox, hbuf]
    have e : scenarioMonitor.scale = 1 := rfl
    rw [e, hslots]
    norm_num [ButtonSlot.rect]
  · have hicons : renderBarButtonsText ⟨98, 68, 804, 30⟩ 1 scenarioHost.buttons
        = (scenarioHost.buttons, []) := by
      have he : ("" : String).isEmpty = true := rfl
      simp [renderBarButtonsText, renderBarButtonsTextLoop, scenarioHost, scenarioButton, he]
    have hm : scenarioHost.windowValidMapped = true := rfl
    have hd : scenarioHost.decorate = true := rfl
    have hH : ¬ scenarioHost.PHEIGHT < 1 := by decide
    have hr : scenarioHost.PROUNDING = 0 := rfl
    have e : scenarioMonitor.scale = 1 := rfl
    have hti : toInt (804 : ℚ) = 804 := by exact_mod_cast toInt_intCast 804
    have hti' : toInt (30 : ℚ) = 30 := by exact_mod_cast toInt_intCast 30
    simp only [draw, hm, hd, hH, hbox, hbuf, hr, e, hslots, hti, hti', hicons]
    simp [scenarioBar, scenarioHost, CTexture.allocate]

/-! ## C8: the damage rectangle -/

/-- Claim C8 as stated fails: in the scenario (position (100,100), size 800×600,
border 2, bar height 30) the rectangle requested by `damageEntire` after a draw
is (98, 67, 804, 35), while the bar box expanded by 2 px on all sides would be
(96, 66, 808, 34). -/
theorem scenario_damage_is_not_bar_box_plus_margin :
    damageEntire (draw scenarioHost scenarioBar scenarioMonitor 1 ⟨0, 0⟩).bar = ⟨98, 67, 804, 35⟩ ∧
    damageEntire (draw scenarioHost scenarioBar scenarioMonitor 1 ⟨0, 0⟩).bar
      ≠ ⟨100 - 2 - 2, 100 - 2 - 30 - 2, 800 + 2 * 2 + 4, 30 + 4⟩ := by
  have hs := draw_state scenarioHost scenarioBar scenarioMonitor 1 ⟨0, 0⟩ rfl rfl (by decide)
  have hd : damageEntire (draw scenarioHost scenarioBar scenarioMonitor 1 ⟨0, 0⟩).bar
      = ⟨98, 67, 804, 35⟩ := by
    simp only [damageEntire, hs.2.2.2.2.2.1, hs.2.2.2.2.2.2, hs.2.2.2.2.1]
    norm_num [scenarioBar, scenarioHost, toInt]
  rw [hd]
  exact ⟨rfl, by decide⟩

/-- Claim C8, amended. For every integer window position and width, every border
size `B` and bar height `H ≥ 1` (window mapped and decorated), after a draw at
that height the rectangle that `damageEntire` requests is
(pos.x - 2, pos.y - (H + 1) - 2, size.x + 4, (H + 1) + 4): the strip of height
`H + 1` above the window's top edge, as wide as the window, expanded by 2 px on
all sides; the border size does not enter. For `0 ≤ B ≤ 2` this rectangle covers
the bar bounding box (x = pos.x - B, y = pos.y - B - H, width = size.x + 2B,
height = H). -/
theorem damage_after_draw (h : Host) (bar : CHyprBar) (pMonitor : CMonitor) (a : ℚ)
    (offset : Vector2D) (px py sx : Int)
    (hm : h.windowValidMapped = true) (hdec : h.decorate = true) (hH : 1 ≤ h.PHEIGHT)
    (hpos : bar.m_vLastWindowPos = ⟨px, py⟩) (hsize : bar.m_vLastWindowSize.x = sx) :
    damageEntire (draw h bar pMonitor a offset).bar
      = ⟨px - 2, py - (h.PHEIGHT + 1) - 2, sx + 4, (h.PHEIGHT + 1) + 4⟩ ∧
    (0 ≤ h.BORDERSIZE → h.BORDERSIZE ≤ 2 →
      (damageEntire (draw h bar pMonitor a offset).bar).x ≤ px - h.BORDERSIZE ∧
      (damageEntire (draw h bar pMonitor a offset).bar).y ≤ py - h.BORDERSIZE - h.PHEIGHT ∧
      (px - h.BORDERSIZE) + (sx + 2 * h.BORDERSIZE)
        ≤ (damageEntire (draw h bar pMonitor a offset).bar).x
          + (damageEntire (draw h bar pMonitor a offset).bar).width ∧
      (py - h.BORDERSIZE - h.PHEIGHT) + h.PHEIGHT
        ≤ (damageEntire (draw h bar pMonitor a offset).bar).y
          + (damageEntire (draw h bar pMonitor a offset).bar).height) := by
  obtain ⟨_, _, _, _, s5, s6, s7⟩ := draw_state h bar pMonitor a offset hm hdec hH
  have e1 : ((px : ℚ) - 0 - 2) = ((px - 2 : Int) : ℚ) := by push_cast; ring
  have e2 : ((py : ℚ) - ((h.PHEIGHT + 1 : Int) : ℚ) - 2) = ((py - (h.PHEIGHT + 1) - 2 : Int) : ℚ) := by
    push_cast; ring
  have e3 : ((sx : ℚ) + 0 + 0 + 4) = ((sx + 4 : Int) : ℚ) := by push_cast; ring
  have hd : damageEntire (draw h bar pMonitor a offset).bar
      = ⟨px - 2, py - (h.PHEIGHT + 1) - 2, sx + 4, (h.PHEIGHT + 1) + 4⟩ := by
    simp only [damageEntire, s5, s6, s7, hpos, hsize, e1, e2, e3, toInt_intCast]
  rw [hd]
  refine ⟨rfl, ?_⟩
  intro hB0 hB2
  simp only
  refine ⟨by omega, by omega, by omega, by omega⟩

/-- Witness for C8 (amended): the scenario of §8. -/
theorem damage_after_draw_witness :
    scenarioHost.windowValidMapped = true ∧ scenarioHost.decorate = true ∧
    1 ≤ scenarioHost.PHEIGHT ∧
    scenarioBar.m_vLastWindowPos = ⟨((100 : Int) : ℚ), ((100 : Int) : ℚ)⟩ ∧
    scenarioBar.m_vLastWindowSize.x = ((800 : Int) : ℚ) ∧
    damageEntire (draw scenarioHost scenarioBar scenarioMonitor 1 ⟨0, 0⟩).bar
      = ⟨100 - 2, 100 - (scenarioHost.PHEIGHT + 1) - 2, 800 + 4, (scenarioHost.PHEIGHT + 1) + 4⟩ :=
  have h1 : scenarioBar.m_vLastWindowPos = ⟨((100 : Int) : ℚ), ((100 : Int) : ℚ)⟩ := by
    simp [scenarioBar]
  have h2 : scenarioBar.m_vLastWindowSize.x = ((800 : Int) : ℚ) := by
    simp [scenarioBar]
  ⟨rfl, rfl, by decide, h1, h2,
    (damage_after_draw scenarioHost scenarioBar scenarioMonitor 1 ⟨0, 0⟩ 100 100 800 rfl rfl
      (by decide) h1 h2).1⟩

end HyprBars
